import Mathlib

/-! tts-go: session pool, request dispatcher and sound accessor

A shallow embedding of `tiktok.go` and `sound.go`.

* Go maps with string keys are association lists; a key denotes its first
  entry (`mapGet`), assignment replaces that entry in place (`mapSet`) and a
  `range` loop that copies a map visits the entries from last to first, so
  that a list with a repeated key copies the value the list denotes (Go
  leaves the visiting order open, and real Go maps have no repeated key).
* The browser, the random source, the URL parser, the HTTP transport and the
  JSON decoder are oracles handed in as arguments.
* Every effect that a claim talks about (browser launches, cancellations,
  sleeps, HTTP requests, page requests, channel sends) is logged explicitly.
-/

namespace TTS

/-! ## Go maps -/

/-- A Go `map[string]T`, as the list of its entries. -/
abbrev GoMap (α : Type) := List (String × α)

/-- A Go `map[string]string`. -/
abbrev StrMap := GoMap String

/-- Map lookup `m[k]` with the comma-ok form: `none` when the key is absent. -/
def mapGet {α : Type} : GoMap α → String → Option α
  | [], _ => none
  | (k', v) :: rest, k => if k' = k then some v else mapGet rest k

/-- Map assignment `m[k] = v`. -/
def mapSet {α : Type} : GoMap α → String → α → GoMap α
  | [], k, v => [(k, v)]
  | (k', v') :: rest, k, v =>
    if k' = k then (k, v) :: rest else (k', v') :: mapSet rest k v

/-- The loop `for k, v := range src { dst[k] = v }`. -/
def mapCopyInto {α : Type} (dst src : GoMap α) : GoMap α :=
  src.foldr (fun kv acc => mapSet acc kv.1 kv.2) dst

/-- Decimal rendering `fmt.Sprintf("%d", n)`. -/
def fmtD (n : Int) : String := toString n

/-! ## JSON values as `encoding/json` decodes them into `interface{}` -/

/-- A finite `float64`: the value `mant * 2 ^ exp`. -/
structure Float64 where
  mant : Int
  exp : Int
deriving DecidableEq, Repr

/-- The integer part of a finite float, rounding toward zero. -/
def Float64.trunc (f : Float64) : Int :=
  if 0 ≤ f.exp then f.mant * 2 ^ f.exp.toNat
  else Int.tdiv f.mant (2 ^ (-f.exp).toNat)

/-- The conversion `int(f)`: truncation toward zero when the result fits a
64-bit `int`; outside that range Go leaves the result to the platform, given
here by `arch`. -/
def floatToInt (arch : Float64 → Int) (f : Float64) : Int :=
  if -(2 ^ 63) ≤ f.trunc ∧ f.trunc < 2 ^ 63 then f.trunc
  else Int.emod (arch f + 2 ^ 63) (2 ^ 64) - 2 ^ 63

/-- A decoded JSON value. -/
inductive JSON where
  | null : JSON
  | bool : Bool → JSON
  | num : Float64 → JSON
  | str : String → JSON
  | arr : List JSON → JSON
  | obj : List (String × JSON) → JSON

/-- A decoded JSON object, `map[string]interface{}`. -/
abbrev JObj := GoMap JSON

/-- The type assertion `v.(string)` on a looked-up value. -/
def asString : Option JSON → Option String
  | some (JSON.str s) => some s
  | _ => none

/-- The type assertion `v.(float64)` on a looked-up value. -/
def asFloat : Option JSON → Option Float64
  | some (JSON.num f) => some f
  | _ => none

/-- The type assertion `v.(bool)` on a looked-up value. -/
def asBool : Option JSON → Option Bool
  | some (JSON.bool b) => some b
  | _ => none

/-- The type assertion `v.([]interface{})` on a looked-up value. -/
def asArray : Option JSON → Option (List JSON)
  | some (JSON.arr xs) => some xs
  | _ => none

/-- The type assertion `v.(map[string]interface{})` on a looked-up value. -/
def asObject : Option JSON → Option JObj
  | some (JSON.obj kvs) => some kvs
  | _ => none

/-! ## Sessions and the client -/

/-- The struct `TikTokSession`. A live browser context is named by the number
of the launch that made it; `CancelFunc` holds the number of the context it
cancels; `none` is Go's `nil`. -/
structure TikTokSession where
  Context : Option Nat
  CancelFunc : Option Nat
  MsToken : String
  Proxy : String
  Headers : StrMap
  Params : StrMap
  BaseURL : String
  BrowserFree : Bool
deriving DecidableEq, Repr

/-- The struct `TikTokAPI` (the logger is never written to by the client).
The pool lists the sessions its pointers refer to; `CreateSessions` stores no
nil pointer. -/
structure TikTokAPI where
  Sessions : List TikTokSession
  Headless : Bool
  BrowserFree : Bool
deriving DecidableEq, Repr

/-- The user agent string hard-coded in `tiktok.go`. -/
def defaultUserAgent : String :=
  "Mozilla/5.0 (Macintosh; Intel Mac OS X 10_15_7) AppleWebKit/537.36 (KHTML, like Gecko) Chrome/91.0.4472.114 Safari/537.36"

/-- The constructor `NewTikTokAPI`. -/
def NewTikTokAPI : TikTokAPI :=
  { Sessions := [], Headless := true, BrowserFree := false }

/-- The setter `SetHeadless`. -/
def SetHeadless (api : TikTokAPI) (headless : Bool) : TikTokAPI :=
  { api with Headless := headless }

/-- The setter `SetBrowserFree`. -/
def SetBrowserFree (api : TikTokAPI) (browserFree : Bool) : TikTokAPI :=
  { api with BrowserFree := browserFree }

/-- The function `createDefaultHeaders`. -/
def createDefaultHeaders : StrMap :=
  [ ("User-Agent", defaultUserAgent),
    ("Accept-Language", "en-US,en;q=0.9"),
    ("Accept", "application/json, text/plain, */*"),
    ("Referer", "https://www.tiktok.com/"),
    ("Origin", "https://www.tiktok.com") ]

/-- The map literal of `createDefaultParams`; `deviceId` is the value drawn
from `rand.Int63()`. -/
def defaultParamsLiteral (deviceId : Nat) : StrMap :=
  [ ("aid", "1988"),
    ("app_language", "en"),
    ("app_name", "tiktok_web"),
    ("browser_language", "en-US"),
    ("browser_name", "Mozilla"),
    ("browser_online", "true"),
    ("browser_platform", "MacIntel"),
    ("browser_version", defaultUserAgent),
    ("channel", "tiktok_web"),
    ("cookie_enabled", "true"),
    ("device_id", fmtD deviceId),
    ("device_platform", "web"),
    ("focus_state", "true"),
    ("from_page", "fyp"),
    ("history_len", "1"),
    ("is_fullscreen", "false"),
    ("is_page_visible", "true"),
    ("language", "en"),
    ("os", "mac"),
    ("priority_region", ""),
    ("referer", ""),
    ("region", "US"),
    ("screen_height", "1080"),
    ("screen_width", "1920"),
    ("tz_name", "America/New_York"),
    ("webcast_language", "en") ]

/-- The function `createDefaultParams`. -/
def createDefaultParams (deviceId : Nat) (msToken : String) : StrMap :=
  let params := defaultParamsLiteral deviceId
  if msToken ≠ "" then mapSet params "msToken" msToken else params

/-- The header map literal of `setSessionParams`. -/
def harvestedHeaders (userAgent language : String) : StrMap :=
  [ ("User-Agent", userAgent),
    ("Accept-Language", language),
    ("Accept", "application/json, text/plain, */*"),
    ("Referer", "https://www.tiktok.com/"),
    ("Origin", "https://www.tiktok.com") ]

/-- The parameter map literal of `setSessionParams`. -/
def harvestedParamsLiteral (userAgent language : String) (deviceId : Nat) : StrMap :=
  [ ("aid", "1988"),
    ("app_language", language),
    ("app_name", "tiktok_web"),
    ("browser_language", language),
    ("browser_name", "Mozilla"),
    ("browser_online", "true"),
    ("browser_platform", "MacIntel"),
    ("browser_version", userAgent),
    ("channel", "tiktok_web"),
    ("cookie_enabled", "true"),
    ("device_id", fmtD deviceId),
    ("device_platform", "web"),
    ("focus_state", "true"),
    ("from_page", "fyp"),
    ("history_len", "1"),
    ("is_fullscreen", "false"),
    ("is_page_visible", "true"),
    ("language", language),
    ("os", "mac"),
    ("priority_region", ""),
    ("referer", ""),
    ("region", "US"),
    ("screen_height", "1080"),
    ("screen_width", "1920"),
    ("tz_name", "America/New_York"),
    ("webcast_language", language) ]

/-- The function `setSessionParams`: `harvest` is the outcome of evaluating
`navigator.userAgent` and the language in the session's browser, an error or
the pair of strings read. -/
def setSessionParams (harvest : Except String (String × String)) (deviceId : Nat)
    (session : TikTokSession) : Except String TikTokSession :=
  match harvest with
  | .error e => .error e
  | .ok (userAgent, language) =>
    let headers := harvestedHeaders userAgent language
    let params := harvestedParamsLiteral userAgent language deviceId
    let params := if session.MsToken ≠ "" then mapSet params "msToken" session.MsToken else params
    .ok { session with Headers := headers, Params := params }

/-! ## Outcomes and the outside world -/

/-- How a Go call ends: a value with a nil error, a non-nil error, or a
run-time panic. -/
inductive Res (α : Type) where
  | ok : α → Res α
  | err : String → Res α
  | panic : Res α

/-- One start of an automated browser by `createSession`. -/
structure Launch where
  startURL : String
  headless : Bool
  proxy : String
deriving DecidableEq, Repr

/-- The effects of the client on the outside world: the browsers launched
(the n-th launch owns context n), the cancel handles invoked, the sleeps taken
(in seconds) and how many random numbers were drawn. -/
structure World where
  launches : List Launch
  cancelled : List Nat
  slept : List Int
  randDrawn : Nat
deriving DecidableEq, Repr

/-- The behaviour of the automated browser and of the random source:
`navigate n` is the error of the navigation in launch n (`none`: it worked),
`harvest n` the outcome of reading user agent and language in launch n,
`rand63 k` the k-th value of `rand.Int63()`. -/
structure Browser where
  navigate : Nat → Option String
  harvest : Nat → Except String (String × String)
  rand63 : Nat → Nat

/-- Calling a value of type `context.CancelFunc`: calling `nil` panics
(`none`), calling a handle logs the cancellation. -/
def callCancel (w : World) : Option Nat → Option World
  | none => none
  | some h => some { w with cancelled := w.cancelled ++ [h] }

/-- The function `createSession`. -/
def createSession (br : Browser) (api : TikTokAPI) (w : World)
    (startURL msToken proxy : String) (sleepAfter : Int) : World × Res TikTokSession :=
  let id := w.launches.length
  let w := { w with launches := w.launches ++ [Launch.mk startURL api.Headless proxy] }
  let session : TikTokSession :=
    { Context := some id, CancelFunc := some id, MsToken := msToken, Proxy := proxy,
      Headers := [], Params := [], BaseURL := "https://www.tiktok.com", BrowserFree := false }
  match br.navigate id with
  | some e => ({ w with cancelled := w.cancelled ++ [id] }, Res.err e)
  | none =>
    match setSessionParams (br.harvest id) (br.rand63 w.randDrawn) session with
    | .error e => ({ w with cancelled := w.cancelled ++ [id] }, Res.err e)
    | .ok session =>
      let w := { w with randDrawn := w.randDrawn + 1, slept := w.slept ++ [sleepAfter] }
      if api.BrowserFree = true ∧ session.MsToken ≠ "" then
        match callCancel w session.CancelFunc with
        | none => (w, Res.panic)
        | some w =>
          (w, Res.ok { Context := none, CancelFunc := none, MsToken := session.MsToken,
                       Proxy := "", Headers := session.Headers, Params := session.Params,
                       BaseURL := "https://www.tiktok.com", BrowserFree := true })
      else (w, Res.ok session)

/-- The first loop of `CreateSessions`, `for i := 0; i < numSessions; i++`,
with `steps` iterations left and the loop variable at `i`. Indexing
`msTokens[i]` past the end panics. -/
def browserFreeLoop (br : Browser) (msTokens : List String) :
    Nat → Nat → World → List TikTokSession → Res (World × List TikTokSession)
  | 0, _, w, sessions => Res.ok (w, sessions)
  | steps + 1, i, w, sessions =>
    match msTokens[i]? with
    | none => Res.panic
    | some tok =>
      if tok = "" then browserFreeLoop br msTokens steps (i + 1) w sessions
      else
        let session : TikTokSession :=
          { Context := none, CancelFunc := none, MsToken := tok, Proxy := "",
            Headers := createDefaultHeaders,
            Params := createDefaultParams (br.rand63 w.randDrawn) tok,
            BaseURL := "https://www.tiktok.com", BrowserFree := true }
        browserFreeLoop br msTokens steps (i + 1)
          { w with randDrawn := w.randDrawn + 1 } (sessions ++ [session])

/-- The token handed to the i-th live session of the second loop. -/
def liveToken (msTokens : List String) (i : Nat) : String :=
  match msTokens[i]? with
  | some tok => if tok ≠ "" then tok else ""
  | none => ""

/-- The second loop of `CreateSessions`, `for i := 0; i < remainingSessions; i++`,
with `steps` iterations left and the loop variable at `i`. The result is the
world and the pool at the moment the function returns, and what it returns. -/
def liveLoop (br : Browser) (msTokens : List String) (sleepAfter : Int) :
    Nat → Nat → World → TikTokAPI → World × TikTokAPI × Res Unit
  | 0, _, w, api => (w, api, Res.ok ())
  | steps + 1, i, w, api =>
    match createSession br api w "https://www.tiktok.com" (liveToken msTokens i) "" sleepAfter with
    | (w, Res.err e) => (w, api, Res.err e)
    | (w, Res.panic) => (w, api, Res.panic)
    | (w, Res.ok session) =>
      liveLoop br msTokens sleepAfter steps (i + 1)
        { w with slept := w.slept ++ [sleepAfter] }
        { api with Sessions := api.Sessions ++ [session] }

/-- The Go subtraction `a - len(xs)` on 64-bit `int`: the difference, wrapped
around by 2^64 when it falls below the smallest `int`. (It cannot exceed the
largest one: `a` is an `int` and a length is not negative.) -/
def intSubLen (a : Int) (len : Nat) : Int :=
  if a - (len : Int) < -(2 ^ 63) then a - (len : Int) + 2 ^ 64 else a - (len : Int)

/-- The method `CreateSessions`. -/
def CreateSessions (br : Browser) (w : World) (api : TikTokAPI) (numSessions : Int)
    (msTokens : List String) (sleepAfter : Int) : World × TikTokAPI × Res Unit :=
  let remaining (api : TikTokAPI) : Nat := (intSubLen numSessions api.Sessions.length).toNat
  if api.BrowserFree = true ∧ (msTokens.length : Int) ≥ numSessions then
    match browserFreeLoop br msTokens numSessions.toNat 0 w api.Sessions with
    | Res.panic => (w, api, Res.panic)
    | Res.err e => (w, api, Res.err e)
    | Res.ok (w, sessions) =>
      let api := { api with Sessions := sessions }
      if (api.Sessions.length : Int) = numSessions then (w, api, Res.ok ())
      else liveLoop br msTokens sleepAfter (remaining api) 0 w api
  else liveLoop br msTokens sleepAfter (remaining api) 0 w api

/-- The loop of `Close` over the pool; `none` is a panic. -/
def closeLoop : List TikTokSession → World → Option World
  | [], w => some w
  | session :: rest, w =>
    if session.BrowserFree = false ∧ session.CancelFunc ≠ none then
      match callCancel w session.CancelFunc with
      | none => none
      | some w => closeLoop rest w
    else closeLoop rest w

/-- The method `Close`. -/
def Close (w : World) (api : TikTokAPI) : Res (World × TikTokAPI) :=
  match closeLoop api.Sessions w with
  | none => Res.panic
  | some w => Res.ok (w, { api with Sessions := [] })

/-! ## The request dispatcher -/

/-- The type `url.Values` (and `http.Header`): each key maps to a list of
values. -/
abbrev Values := GoMap (List String)

/-- A parsed URL: `query` is the query string, held as the key/value mapping
that `Query()` decodes it to and that `Encode()` writes back; `base` is the
rest of the URL. -/
structure URL where
  base : String
  query : Values
deriving DecidableEq, Repr

/-- An outgoing HTTP request. -/
structure Request where
  method : String
  url : URL
  header : Values
deriving DecidableEq, Repr

/-- An HTTP response: the status code and the outcome of reading the body. -/
structure Response where
  status : Nat
  body : Except String String

/-- The library and network behaviour `MakeRequest` relies on: `parse` is
`url.Parse` followed by `Query()`, `newRequest` the error of
`http.NewRequest` (`none`: no error), `canonicalKey` the header key
canonicalisation done by `Header.Set`, `roundTrip` is `client.Do`, and
`unmarshal` is `json.Unmarshal` into a nil `map[string]interface{}` (the JSON
text `null` leaves the map nil: `ok none`). -/
structure Net where
  parse : String → Except String URL
  newRequest : URL → Option String
  canonicalKey : String → String
  roundTrip : Request → Except String Response
  unmarshal : String → Except String (Option JObj)

/-- The loop `for k, v := range mergedParams { q.Set(k, v) }`. -/
def setQuery (q : Values) (mergedParams : StrMap) : Values :=
  mergedParams.foldr (fun kv acc => mapSet acc kv.1 [kv.2]) q

/-- The loop `for k, v := range headers { req.Header.Set(k, v) }`. -/
def setHeaders (net : Net) (header : Values) (headers : StrMap) : Values :=
  headers.foldr (fun kv acc => mapSet acc (net.canonicalKey kv.1) [kv.2]) header

/-- The method `makeHTTPRequest`, returning its result and the list of HTTP
requests it handed to the transport. -/
def makeHTTPRequest (net : Net) (session : TikTokSession) (urlStr : String)
    (params headers : StrMap) : Res (Option JObj) × List Request :=
  let mergedParams := mapCopyInto (mapCopyInto [] session.Params) params
  match net.parse urlStr with
  | .error e => (Res.err e, [])
  | .ok parsedURL =>
    let q := setQuery parsedURL.query mergedParams
    let parsedURL := { parsedURL with query := q }
    match net.newRequest parsedURL with
    | some e => (Res.err e, [])
    | none =>
      let header := setHeaders net (setHeaders net [] session.Headers) headers
      let req : Request := { method := "GET", url := parsedURL, header := header }
      match net.roundTrip req with
      | .error e => (Res.err e, [req])
      | .ok resp =>
        match resp.body with
        | .error e => (Res.err e, [req])
        | .ok body =>
          match net.unmarshal body with
          | .error e => (Res.err e, [req])
          | .ok result => (Res.ok result, [req])

/-- The slice access `api.Sessions[sessionIndex]`: `none` is the index panic. -/
def sessionAt (sessions : List TikTokSession) (sessionIndex : Int) : Option TikTokSession :=
  if sessionIndex < 0 then none else sessions[sessionIndex.toNat]?

/-- The method `MakeRequest`, returning its result and the list of HTTP
requests it handed to the transport. -/
def MakeRequest (net : Net) (api : TikTokAPI) (urlStr : String) (params headers : StrMap)
    (sessionIndex : Int) : Res (Option JObj) × List Request :=
  if sessionIndex ≥ (api.Sessions.length : Int) then
    (Res.err "session index out of range", [])
  else
    match sessionAt api.Sessions sessionIndex with
    | none => (Res.panic, [])
    | some session =>
      if session.BrowserFree = true then makeHTTPRequest net session urlStr params headers
      else
        let mergedParams := mapCopyInto (mapCopyInto [] session.Params) params
        match net.parse urlStr with
        | .error e => (Res.err e, [])
        | .ok parsedURL =>
          let q := setQuery parsedURL.query mergedParams
          let parsedURL := { parsedURL with query := q }
          match net.newRequest parsedURL with
          | some e => (Res.err e, [])
          | none =>
            let header := setHeaders net (setHeaders net [] session.Headers) headers
            let req : Request := { method := "GET", url := parsedURL, header := header }
            match net.roundTrip req with
            | .error e => (Res.err e, [req])
            | .ok resp =>
              match resp.body with
              | .error e => (Res.err e, [req])
              | .ok body =>
                match net.unmarshal body with
                | .error e => (Res.err e, [req])
                | .ok result => (Res.ok result, [req])

/-! ## The sound accessor -/

/-- A value stored in an options bag `map[string]interface{}`, by its dynamic
type. -/
inductive GoVal where
  | int : Int → GoVal
  | str : String → GoVal
  | strMap : StrMap → GoVal
  | other : GoVal
deriving DecidableEq, Repr

/-- The arguments of one call of the interface method `MakeRequest`. -/
structure Call where
  url : String
  params : StrMap
  headers : StrMap
  sessionIndex : Int
deriving DecidableEq, Repr

/-- A value implementing the interface `MakeRequest(...)` that `Sound.API` is
asserted to: `api n call` is the outcome of the n-th call made through it,
counting from zero. -/
abbrev Dispatcher := Nat → Call → Res (Option JObj)

/-- The client as a dispatcher: the n-th call meets the network `nets n`. -/
def apiDispatcher (nets : Nat → Net) (api : TikTokAPI) : Dispatcher :=
  fun n call => (MakeRequest (nets n) api call.url call.params call.headers call.sessionIndex).1

/-- The struct `Sound`; `API` is `none` when the reference does not implement
the dispatch interface, `AsDict` is `none` for a nil map. -/
structure Sound where
  API : Option Dispatcher
  ID : String
  Title : String
  Duration : Int
  Original : Bool
  AsDict : Option JObj

/-- The session index read from the options bag, 0 unless `session_index`
holds an `int`. -/
def optSessionIndex (options : GoMap GoVal) : Int :=
  match mapGet options "session_index" with
  | some (GoVal.int idx) => idx
  | _ => 0

/-- The statement `params["msToken"] = token` guarded by `ms_token` holding a
string. -/
def optToken (options : GoMap GoVal) (params : StrMap) : StrMap :=
  match mapGet options "ms_token" with
  | some (GoVal.str token) => mapSet params "msToken" token
  | _ => params

/-- The headers read from the options bag, empty unless `headers` holds a
`map[string]string`. -/
def optHeaders (options : GoMap GoVal) : StrMap :=
  match mapGet options "headers" with
  | some (GoVal.strMap hdrs) => hdrs
  | _ => []

/-- The method `extractFromData`. -/
def extractFromData (arch : Float64 → Int) (s : Sound) : Sound :=
  match s.AsDict with
  | none => s
  | some asDict =>
    match asObject (mapGet asDict "musicInfo") with
    | none => s
    | some musicInfo =>
      let s := match asString (mapGet musicInfo "title") with
        | some title => { s with Title := title }
        | none => s
      let s := match asFloat (mapGet musicInfo "duration") with
        | some duration => { s with Duration := floatToInt arch duration }
        | none => s
      let s := match asBool (mapGet musicInfo "original") with
        | some original => { s with Original := original }
        | none => s
      s

/-- The call that `Info` dispatches. -/
def infoCall (id : String) (options : GoMap GoVal) : Call :=
  { url := "https://www.tiktok.com/api/music/detail/",
    params := optToken options [("musicId", id)],
    headers := optHeaders options,
    sessionIndex := optSessionIndex options }

/-- The method `Info`: the accessor afterwards and what the call returns. -/
def Info (arch : Float64 → Int) (s : Sound) (options : GoMap GoVal) : Sound × Res JObj :=
  match s.API with
  | none => (s, Res.err "invalid API reference")
  | some api =>
    match api 0 (infoCall s.ID options) with
    | Res.panic => (s, Res.panic)
    | Res.err e => (s, Res.err e)
    | Res.ok none => (s, Res.err "TikTok returned an invalid response")
    | Res.ok (some resp) =>
      let s := { s with AsDict := some resp }
      (extractFromData arch s, Res.ok resp)

/-- How the goroutine of `Videos` stands: it returned and the deferred
`close(videos)` ran, it died in a panic, it is stuck in a send on a full
channel, or it is still paging (the fuel of the model ran out). -/
inductive StreamStatus where
  | closed : StreamStatus
  | crashed : StreamStatus
  | blocked : StreamStatus
  | running : StreamStatus
deriving DecidableEq, Repr

/-- A run of the goroutine of `Videos` against a consumer that never
receives: `sent` are the values sent on the channel in order (all of them
still in its buffer), `calls` the page requests dispatched, in order. -/
structure Stream where
  sent : List JObj
  calls : List Call
  status : StreamStatus

/-- How the loop `for _, item := range itemList` ends: it ran through the
list, it hit `return`, or a send found the channel full. -/
inductive SendEnd where
  | finished : SendEnd
  | returned : SendEnd
  | blocked : SendEnd
deriving DecidableEq, Repr

/-- The loop `for _, item := range itemList` of `Videos` on a channel of
capacity `cap`: the way it ends, `currentCount` and the values sent so far. -/
def sendItems (count cap : Int) : List JSON → Int → List JObj → SendEnd × Int × List JObj
  | [], currentCount, sent => (SendEnd.finished, currentCount, sent)
  | item :: rest, currentCount, sent =>
    if currentCount ≥ count then (SendEnd.returned, currentCount, sent)
    else
      match asObject (some item) with
      | none => sendItems count cap rest currentCount sent
      | some videoMap =>
        if (sent.length : Int) < cap then
          sendItems count cap rest (currentCount + 1) (sent ++ [videoMap])
        else (SendEnd.blocked, currentCount, sent)

/-- The call that `Videos` dispatches for one page. -/
def videosCall (id : String) (currentCursor : Int) (options : GoMap GoVal) : Call :=
  { url := "https://www.tiktok.com/api/music/item_list/",
    params := optToken options
      [("musicID", id), ("count", fmtD 30), ("cursor", fmtD currentCursor)],
    headers := optHeaders options,
    sessionIndex := optSessionIndex options }

/-- The loop `for currentCount < count` of the goroutine of `Videos`, allowed
`fuel` more page requests; `n` counts the calls made so far through the
dispatcher. -/
def videosLoop (arch : Float64 → Int) (api : Dispatcher) (id : String) (count : Int)
    (options : GoMap GoVal) :
    Nat → Nat → Int → Int → List JObj → List Call → Stream
  | 0, _, currentCount, _, sent, calls =>
    if currentCount < count then { sent := sent, calls := calls, status := StreamStatus.running }
    else { sent := sent, calls := calls, status := StreamStatus.closed }
  | fuel + 1, n, currentCount, currentCursor, sent, calls =>
    if currentCount < count then
      let call := videosCall id currentCursor options
      let calls := calls ++ [call]
      match api n call with
      | Res.panic => { sent := sent, calls := calls, status := StreamStatus.crashed }
      | Res.err _ => { sent := sent, calls := calls, status := StreamStatus.closed }
      | Res.ok none => { sent := sent, calls := calls, status := StreamStatus.closed }
      | Res.ok (some resp) =>
        match asArray (mapGet resp "itemList") with
        | none => { sent := sent, calls := calls, status := StreamStatus.closed }
        | some itemList =>
          if itemList.length = 0 then
            { sent := sent, calls := calls, status := StreamStatus.closed }
          else
            match sendItems count count itemList currentCount sent with
            | (SendEnd.returned, _, sent) =>
              { sent := sent, calls := calls, status := StreamStatus.closed }
            | (SendEnd.blocked, _, sent) =>
              { sent := sent, calls := calls, status := StreamStatus.blocked }
            | (SendEnd.finished, currentCount, sent) =>
              match asBool (mapGet resp "hasMore") with
              | none => { sent := sent, calls := calls, status := StreamStatus.closed }
              | some false => { sent := sent, calls := calls, status := StreamStatus.closed }
              | some true =>
                match asFloat (mapGet resp "cursor") with
                | none => { sent := sent, calls := calls, status := StreamStatus.closed }
                | some cursor =>
                  videosLoop arch api id count options fuel (n + 1) currentCount
                    (floatToInt arch cursor) sent calls
    else { sent := sent, calls := calls, status := StreamStatus.closed }

/-- The method `Videos`: the error it returns, the panic of `make` on a
negative capacity, or the run of its goroutine with `fuel` page requests
allowed. -/
def Videos (arch : Float64 → Int) (s : Sound) (count cursor : Int) (options : GoMap GoVal)
    (fuel : Nat) : Res Stream :=
  match s.API with
  | none => Res.err "invalid API reference"
  | some api =>
    if count < 0 then Res.panic
    else Res.ok (videosLoop arch api s.ID count options fuel 0 0 cursor [] [])

/-! ## Sample inputs -/

/-- A network in which every URL parses to itself with an empty query, every
request is accepted and answered `200` with the body `null`. -/
def sampleNet : Net :=
  { parse := fun u => .ok { base := u, query := [] },
    newRequest := fun _ => none,
    canonicalKey := fun k => k,
    roundTrip := fun _ => .ok { status := 200, body := .ok "null" },
    unmarshal := fun _ => .ok none }

/-- A live session with two parameters. -/
def sampleLive : TikTokSession :=
  { Context := some 0, CancelFunc := some 0, MsToken := "", Proxy := "",
    Headers := [], Params := [("aid", "1988"), ("region", "US")],
    BaseURL := "https://www.tiktok.com", BrowserFree := false }

/-- A browser-free session with two parameters. -/
def sampleFree : TikTokSession :=
  { Context := none, CancelFunc := none, MsToken := "tok", Proxy := "",
    Headers := [], Params := [("aid", "1988"), ("msToken", "tok")],
    BaseURL := "https://www.tiktok.com", BrowserFree := true }

/-- A pool holding a live and a browser-free session. -/
def samplePool : TikTokAPI :=
  { Sessions := [sampleLive, sampleFree], Headless := true, BrowserFree := true }

/-- The request issued for `samplePool`, session 0, with the call-supplied
parameter `region=GB`. -/
def sampleRequest : Request :=
  { method := "GET",
    url := { base := "https://www.tiktok.com/api/music/detail/",
             query := [("aid", ["1988"]), ("region", ["GB"])] },
    header := [] }

/-- A payload of the metadata endpoint without the key `musicInfo`. -/
def samplePayload : JObj :=
  [("statusCode", JSON.num { mant := 0, exp := 0 }), ("status_msg", JSON.str "")]

/-- A dispatcher answering every call with `samplePayload`. -/
def sampleDispatcher : Dispatcher := fun _ _ => Res.ok (some samplePayload)

/-- An accessor holding metadata cached by an earlier fetch. -/
def sampleSound : Sound :=
  { API := some sampleDispatcher, ID := "7016547803243022337", Title := "old title",
    Duration := 42, Original := true, AsDict := none }

/-- The cancel handle that `Close` has to invoke for a session: the one a
live session holds, none for a browser-free session. -/
def liveHandle (session : TikTokSession) : Option Nat :=
  if session.BrowserFree = true then none else session.CancelFunc

/-- A world in which one browser was launched and nothing else happened. -/
def sampleWorld : World :=
  { launches := [Launch.mk "https://www.tiktok.com" true ""], cancelled := [], slept := [],
    randDrawn := 0 }

/-- The sessions that `CreateSessions` builds straight from tokens, without
a browser: what its first loop appends to the pool. -/
def directSessions (br : Browser) (w : World) (api : TikTokAPI) (numSessions : Int)
    (msTokens : List String) : List TikTokSession :=
  if api.BrowserFree = true ∧ (msTokens.length : Int) ≥ numSessions then
    match browserFreeLoop br msTokens numSessions.toNat 0 w api.Sessions with
    | Res.ok (_, sessions) => sessions.drop api.Sessions.length
    | _ => []
  else []

/-- A browser in which every navigation and every harvest succeeds. -/
def sampleBrowser : Browser :=
  { navigate := fun _ => none,
    harvest := fun _ => .ok ("Mozilla/5.0", "en-US"),
    rand63 := fun k => k }

/-- A new client set to prefer browser-free sessions. -/
def sampleClient : TikTokAPI := SetBrowserFree NewTikTokAPI true

/-- Two non-empty tokens. -/
def sampleTokens : List String := ["tokenA", "tokenB"]

/-- A token list whose second entry is empty. -/
def sampleTokensGap : List String := ["tokenA", ""]

/-- The items of a page that are JSON objects, in server order. -/
def objectItems (itemList : List JSON) : List JObj :=
  itemList.filterMap (fun item => asObject (some item))

/-- A page of the item-list endpoint: three videos and a stray string, more
pages announced. -/
def samplePage : JObj :=
  [("itemList", JSON.arr [JSON.obj [("id", JSON.str "v1")], JSON.str "noise",
      JSON.obj [("id", JSON.str "v2")], JSON.obj [("id", JSON.str "v3")]]),
   ("hasMore", JSON.bool true),
   ("cursor", JSON.num { mant := 30, exp := 0 })]

/-- A page of the item-list endpoint with an empty item list that announces
more pages. -/
def sampleEmptyPage : JObj :=
  [("itemList", JSON.arr []), ("hasMore", JSON.bool true),
   ("cursor", JSON.num { mant := 60, exp := 0 })]

/-- An accessor whose dispatcher answers every call with `samplePage`. -/
def samplePagedSound : Sound :=
  { API := some (fun _ _ => Res.ok (some samplePage)), ID := "7016547803243022337",
    Title := "", Duration := 0, Original := false, AsDict := none }

/-- A dispatcher answering every call with `sampleEmptyPage`. -/
def sampleEmptyPager : Dispatcher := fun _ _ => Res.ok (some sampleEmptyPage)

/-- An accessor whose dispatcher is `sampleEmptyPager`. -/
def sampleEmptySound : Sound :=
  { API := some sampleEmptyPager, ID := "7016547803243022337",
    Title := "", Duration := 0, Original := false, AsDict := none }

/-- An accessor that dispatches through `samplePool` over `sampleNet`. -/
def samplePoolSound : Sound :=
  { API := some (apiDispatcher (fun _ => sampleNet) samplePool), ID := "7016547803243022337",
    Title := "old title", Duration := 42, Original := true, AsDict := none }

/-- An accessor that dispatches through a new client with an empty pool. -/
def sampleUnpooledSound : Sound :=
  { API := some (apiDispatcher (fun _ => sampleNet) NewTikTokAPI), ID := "7016547803243022337",
    Title := "old title", Duration := 42, Original := true, AsDict := none }

/-- The token list `["a", ""]`. -/
def sampleTokensReuse : List String := ["a", ""]

/-- A network that answers every request with status 404 and the body
`\x7b\x7d`, the empty JSON object, which the decoder accepts. -/
def sampleNet404 : Net :=
  { parse := fun u => .ok { base := u, query := [] },
    newRequest := fun _ => none,
    canonicalKey := fun k => k,
    roundTrip := fun _ => .ok { status := 404, body := .ok "\x7b\x7d" },
    unmarshal := fun body =>
      if body = "\x7b\x7d" then .ok (some []) else .error "invalid character" }

/-- A metadata payload whose `musicInfo` has a title, a duration of 3.5
seconds and an `original` field of the wrong type. -/
def sampleMusicPayload : JObj :=
  [("musicInfo", JSON.obj [("title", JSON.str "new title"),
      ("duration", JSON.num { mant := 7, exp := -1 }), ("original", JSON.str "yes")])]

/-- An accessor with cached metadata whose dispatcher answers
`sampleMusicPayload`. -/
def sampleMusicSound : Sound :=
  { API := some (fun _ _ => Res.ok (some sampleMusicPayload)), ID := "7016547803243022337",
    Title := "old title", Duration := 42, Original := true, AsDict := none }

/-- The mode invariant of a session: a browser-free session holds neither an
execution context nor a cancel handle, a live session holds a context and the
handle that cancels it. -/
def ModeInvariant (session : TikTokSession) : Prop :=
  (session.BrowserFree = true → session.Context = none ∧ session.CancelFunc = none) ∧
  (session.BrowserFree = false →
    ∃ id, session.Context = some id ∧ session.CancelFunc = some id)

/-- How one round of the paging loop of `Videos` ends: the goroutine stops
with a status and the values sent so far, or the loop goes round again with
a new count, a new cursor and the values sent so far. -/
inductive PageEnd where
  | stop : StreamStatus → List JObj → PageEnd
  | next : Int → Int → List JObj → PageEnd

/-- One round of the loop `for currentCount < count` of `Videos`, from the
dispatch of the page request to the update of the cursor. -/
def pageStep (arch : Float64 → Int) (api : Dispatcher) (id : String) (count : Int)
    (options : GoMap GoVal) (n : Nat) (currentCount currentCursor : Int) (sent : List JObj) :
    PageEnd :=
  match api n (videosCall id currentCursor options) with
  | Res.panic => PageEnd.stop StreamStatus.crashed sent
  | Res.err _ => PageEnd.stop StreamStatus.closed sent
  | Res.ok none => PageEnd.stop StreamStatus.closed sent
  | Res.ok (some resp) =>
    match asArray (mapGet resp "itemList") with
    | none => PageEnd.stop StreamStatus.closed sent
    | some itemList =>
      if itemList.length = 0 then PageEnd.stop StreamStatus.closed sent
      else
        match sendItems count count itemList currentCount sent with
        | (SendEnd.returned, _, sent) => PageEnd.stop StreamStatus.closed sent
        | (SendEnd.blocked, _, sent) => PageEnd.stop StreamStatus.blocked sent
        | (SendEnd.finished, currentCount, sent) =>
          match asBool (mapGet resp "hasMore") with
          | none => PageEnd.stop StreamStatus.closed sent
          | some false => PageEnd.stop StreamStatus.closed sent
          | some true =>
            match asFloat (mapGet resp "cursor") with
            | none => PageEnd.stop StreamStatus.closed sent
            | some cursor => PageEnd.next currentCount (floatToInt arch cursor) sent

/-- The item list of a page, empty when the field `itemList` is missing or
not an array. -/
def pageItems (resp : JObj) : List JSON :=
  match asArray (mapGet resp "itemList") with
  | some itemList => itemList
  | none => []

/-- A last page of the item-list endpoint: three videos, no further page. -/
def sampleLastPage : JObj :=
  [("itemList", JSON.arr [JSON.obj [("id", JSON.str "v4")],
      JSON.obj [("id", JSON.str "v5")], JSON.obj [("id", JSON.str "v6")]]),
   ("hasMore", JSON.bool false)]

/-- An accessor whose dispatcher answers the first call with `samplePage`
and fails on every later call. -/
def sampleFailingSound : Sound :=
  { API := some (fun n _ => if n = 0 then Res.ok (some samplePage) else Res.err "timeout"),
    ID := "7016547803243022337", Title := "", Duration := 0, Original := false,
    AsDict := none }

/-- An accessor whose dispatcher answers the first call with `samplePage`
and every later call with `sampleLastPage`. -/
def sampleTwoPageSound : Sound :=
  { API := some (fun n _ =>
      if n = 0 then Res.ok (some samplePage) else Res.ok (some sampleLastPage)),
    ID := "7016547803243022337", Title := "", Duration := 0, Original := false,
    AsDict := none }

/-- The stream after the first page of `samplePage`, with more items wanted. -/
def sampleStreamAfterOnePage : Stream :=
  { sent := [[("id", JSON.str "v1")], [("id", JSON.str "v2")], [("id", JSON.str "v3")]],
    calls := [videosCall "7016547803243022337" 0 []],
    status := StreamStatus.running }

/-- A page of the item-list endpoint whose only item is a string, and which
announces a further page. -/
def sampleJunkPage : JObj :=
  [("itemList", JSON.arr [JSON.str "noise"]), ("hasMore", JSON.bool true),
   ("cursor", JSON.num { mant := 0, exp := 0 })]

/-- An accessor whose dispatcher answers every call with `sampleJunkPage`. -/
def sampleJunkSound : Sound :=
  { API := some (fun _ _ => Res.ok (some sampleJunkPage)), ID := "7016547803243022337",
    Title := "", Duration := 0, Original := false, AsDict := none }

/-- The cursor that the loop of `Videos` carries over from the outcome of a
page request: the `int` conversion of the page's `cursor` number, and
`previous` when there is none. -/
def nextCursor (arch : Float64 → Int) (page : Res (Option JObj)) (previous : Int) : Int :=
  match page with
  | Res.ok (some resp) =>
    match asFloat (mapGet resp "cursor") with
    | some cursor => floatToInt arch cursor
    | none => previous
  | _ => previous

/-- The cursor of the i-th page request (from zero) of a stream: the caller's
start cursor, then the cursor carried over from the page before. -/
def cursorSeq (arch : Float64 → Int) (api : Dispatcher) (id : String) (options : GoMap GoVal)
    (cursor : Int) : Nat → Int
  | 0 => cursor
  | i + 1 =>
    nextCursor arch (api i (videosCall id (cursorSeq arch api id options cursor i) options))
      (cursorSeq arch api id options cursor i)

/-- A page with one video that announces a further page at the cursor 2^63,
which JSON writes as 9223372036854775808. -/
def sampleHugeCursorPage : JObj :=
  [("itemList", JSON.arr [JSON.obj [("id", JSON.str "v1")]]), ("hasMore", JSON.bool true),
   ("cursor", JSON.num { mant := 1, exp := 63 })]

/-- An accessor whose dispatcher answers every call with
`sampleHugeCursorPage`. -/
def sampleHugeCursorSound : Sound :=
  { API := some (fun _ _ => Res.ok (some sampleHugeCursorPage)), ID := "7016547803243022337",
    Title := "", Duration := 0, Original := false, AsDict := none }

/-- The out-of-range result of the float-to-integer conversion on amd64, the
smallest 64-bit integer. -/
def sampleArch : Float64 → Int := fun _ => -(2 ^ 63)

/-- The run of `Videos` on `samplePagedSound` with count 5, start cursor 7
and four page requests allowed. -/
def samplePagedRun : Stream :=
  videosLoop (fun _ => 0) (fun _ _ => Res.ok (some samplePage)) samplePagedSound.ID 5 []
    4 0 0 7 [] []

/-- A client that keeps its browsers (`BrowserFree` unset) and already holds
one live session. -/
def sampleLivePool : TikTokAPI :=
  { Sessions := [sampleLive], Headless := true, BrowserFree := false }

/-- Whether the outcome of a page request is a page that keeps the loop of
`Videos` going without bringing it forward: a non-empty item list without a
single object item, `hasMore` true and a numeric cursor. -/
def junkPage (page : Res (Option JObj)) : Bool :=
  match page with
  | Res.ok (some resp) =>
    match asArray (mapGet resp "itemList") with
    | some itemList =>
      !itemList.isEmpty && (objectItems itemList).isEmpty &&
        (asBool (mapGet resp "hasMore") == some true) &&
        (asFloat (mapGet resp "cursor")).isSome
    | none => false
  | _ => false

/-- An accessor whose dispatcher answers the first call with `sampleJunkPage`
and every later call with `samplePage`. -/
def sampleJunkThenGoodSound : Sound :=
  { API := some (fun n _ =>
      if n = 0 then Res.ok (some sampleJunkPage) else Res.ok (some samplePage)),
    ID := "7016547803243022337", Title := "", Duration := 0, Original := false,
    AsDict := none }

/-! ## Lemmas on maps -/

theorem mapGet_mapSet_self {α : Type} (m : GoMap α) (k : String) (v : α) :
    mapGet (mapSet m k v) k = some v := by
  induction m with
  | nil => simp [mapSet, mapGet]
  | cons hd tl ih =>
    obtain ⟨k', v'⟩ := hd
    by_cases h : k' = k
    · simp [mapSet, mapGet, h]
    · simp [mapSet, mapGet, h, ih]

theorem mapGet_mapSet_ne {α : Type} (m : GoMap α) (k k' : String) (v : α) (h : k ≠ k') :
    mapGet (mapSet m k v) k' = mapGet m k' := by
  induction m with
  | nil => simp [mapSet, mapGet, h]
  | cons hd tl ih =>
    obtain ⟨k₀, v₀⟩ := hd
    by_cases h₀ : k₀ = k
    · subst h₀
      simp [mapSet, mapGet, h]
    · by_cases h₁ : k₀ = k'
      · subst h₁
        simp [mapSet, mapGet, h₀]
      · simp [mapSet, mapGet, h₀, h₁, ih]

theorem mapGet_mapCopyInto {α : Type} (dst src : GoMap α) (k : String) :
    mapGet (mapCopyInto dst src) k =
      match mapGet src k with
      | some v => some v
      | none => mapGet dst k := by
  induction src with
  | nil => simp [mapCopyInto, mapGet]
  | cons hd tl ih =>
    obtain ⟨k', v'⟩ := hd
    have hstep : mapCopyInto dst ((k', v') :: tl) = mapSet (mapCopyInto dst tl) k' v' := rfl
    rw [hstep]
    by_cases h : k' = k
    · subst h
      simp [mapGet, mapGet_mapSet_self]
    · rw [mapGet_mapSet_ne _ _ _ _ h, ih]
      simp [mapGet, h]

theorem mapGet_setQuery (q : Values) (m : StrMap) (k : String) :
    mapGet (setQuery q m) k =
      match mapGet m k with
      | some v => some [v]
      | none => mapGet q k := by
  induction m with
  | nil => simp [setQuery, mapGet]
  | cons hd tl ih =>
    obtain ⟨k', v'⟩ := hd
    have hstep : setQuery q ((k', v') :: tl) = mapSet (setQuery q tl) k' [v'] := rfl
    rw [hstep]
    by_cases h : k' = k
    · subst h
      simp [mapGet, mapGet_mapSet_self]
    · rw [mapGet_mapSet_ne _ _ _ _ h, ih]
      simp [mapGet, h]

/-- The query of a request carries every call-supplied parameter, and every
session parameter whose key the call does not supply. -/
theorem mapGet_mergedQuery (q : Values) (S P : StrMap) (k : String) :
    mapGet (setQuery q (mapCopyInto (mapCopyInto [] S) P)) k =
      match mapGet P k with
      | some v => some [v]
      | none =>
        match mapGet S k with
        | some v => some [v]
        | none => mapGet q k := by
  rw [mapGet_setQuery, mapGet_mapCopyInto, mapGet_mapCopyInto]
  cases mapGet P k <;> cases mapGet S k <;> simp [mapGet]

/-! ## The request dispatcher: index check and parameter merge -/

/-- The live branch of `MakeRequest` runs the same steps as `makeHTTPRequest`. -/
theorem MakeRequest_in_range (net : Net) (api : TikTokAPI) (urlStr : String)
    (params headers : StrMap) (sessionIndex : Int) (session : TikTokSession)
    (hlt : sessionIndex < (api.Sessions.length : Int))
    (hs : sessionAt api.Sessions sessionIndex = some session) :
    MakeRequest net api urlStr params headers sessionIndex =
      makeHTTPRequest net session urlStr params headers := by
  unfold MakeRequest
  rw [if_neg (not_le.mpr hlt), hs]
  by_cases hb : session.BrowserFree = true
  · simp [hb]
  · simp [hb, makeHTTPRequest]

/-- Every request handed to the transport by `makeHTTPRequest` has the merged
parameters set on the parsed URL's query. -/
theorem makeHTTPRequest_query (net : Net) (session : TikTokSession) (urlStr : String)
    (params headers : StrMap) (req : Request)
    (hreq : req ∈ (makeHTTPRequest net session urlStr params headers).2) :
    ∃ parsedURL, net.parse urlStr = .ok parsedURL ∧
      req.url.query = setQuery parsedURL.query
        (mapCopyInto (mapCopyInto [] session.Params) params) := by
  unfold makeHTTPRequest at hreq
  cases hp : net.parse urlStr with
  | error e => simp [hp] at hreq
  | ok parsedURL =>
    refine ⟨parsedURL, rfl, ?_⟩
    simp only [hp] at hreq
    split at hreq
    · simp at hreq
    · split at hreq
      · simp at hreq; rw [hreq]
      · split at hreq
        · simp at hreq; rw [hreq]
        · split at hreq <;> (simp at hreq; rw [hreq])

/-- C1: whenever `sessionIndex >= len(api.Sessions)`, for every pool, URL,
extra parameters and headers, `MakeRequest` returns the error
`session index out of range` and hands no request to the HTTP transport. -/
theorem MakeRequest_index_out_of_range (net : Net) (api : TikTokAPI) (urlStr : String)
    (params headers : StrMap) (sessionIndex : Int)
    (h : sessionIndex ≥ (api.Sessions.length : Int)) :
    MakeRequest net api urlStr params headers sessionIndex =
      (Res.err "session index out of range", []) := by
  unfold MakeRequest
  rw [if_pos h]

/-- C1 at the empty pool of a new client with the default index 0. -/
theorem MakeRequest_index_out_of_range_witness :
    (0 : Int) ≥ ((NewTikTokAPI.Sessions.length : Nat) : Int) ∧
    MakeRequest sampleNet NewTikTokAPI "https://www.tiktok.com/api/music/detail/"
        [("musicId", "7")] [] 0 =
      (Res.err "session index out of range", []) :=
  ⟨by decide, MakeRequest_index_out_of_range sampleNet NewTikTokAPI _ _ _ 0 (by decide)⟩

/-- C2: in every request that `MakeRequest` issues on the session at
`sessionIndex` (live or browser-free), the query maps each key of the
call-supplied parameters `P` to its value in `P`, and each key of the session
parameters that `P` lacks to its value in the session. -/
theorem MakeRequest_query_merge (net : Net) (api : TikTokAPI) (urlStr : String)
    (P headers : StrMap) (sessionIndex : Int) (session : TikTokSession) (req : Request)
    (hs : sessionAt api.Sessions sessionIndex = some session)
    (hreq : req ∈ (MakeRequest net api urlStr P headers sessionIndex).2) :
    (∀ k v, mapGet P k = some v → mapGet req.url.query k = some [v]) ∧
    (∀ k v, mapGet P k = none → mapGet session.Params k = some v →
      mapGet req.url.query k = some [v]) := by
  by_cases hge : sessionIndex ≥ (api.Sessions.length : Int)
  · unfold MakeRequest at hreq
    rw [if_pos hge] at hreq
    simp at hreq
  · rw [MakeRequest_in_range net api urlStr P headers sessionIndex session
      (not_le.mp hge) hs] at hreq
    obtain ⟨parsedURL, _, hq⟩ := makeHTTPRequest_query net session urlStr P headers req hreq
    constructor
    · intro k v hk
      rw [hq, mapGet_mergedQuery, hk]
    · intro k v hk hsk
      rw [hq, mapGet_mergedQuery, hk, hsk]

/-- C2 at a live session with parameters `aid=1988`, `region=US` and the
call-supplied parameter `region=GB`. -/
theorem MakeRequest_query_merge_witness :
    sessionAt samplePool.Sessions 0 = some sampleLive ∧
    sampleRequest ∈ (MakeRequest sampleNet samplePool
      "https://www.tiktok.com/api/music/detail/" [("region", "GB")] [] 0).2 ∧
    ((∀ k v, mapGet [("region", "GB")] k = some v →
        mapGet sampleRequest.url.query k = some [v]) ∧
     (∀ k v, mapGet [("region", "GB")] k = none → mapGet sampleLive.Params k = some v →
        mapGet sampleRequest.url.query k = some [v])) :=
  ⟨by decide, by decide,
    MakeRequest_query_merge sampleNet samplePool "https://www.tiktok.com/api/music/detail/"
      [("region", "GB")] [] 0 sampleLive sampleRequest (by decide) (by decide)⟩

/-! ## The parameter builder -/

theorem mapGet_defaultParamsLiteral (deviceId : Nat) :
    mapGet (defaultParamsLiteral deviceId) "msToken" = none := by
  simp [defaultParamsLiteral, mapGet]

theorem mapGet_harvestedParamsLiteral (userAgent language : String) (deviceId : Nat) :
    mapGet (harvestedParamsLiteral userAgent language deviceId) "msToken" = none := by
  simp [harvestedParamsLiteral, mapGet]

/-- C7: the parameter map of a browser-free session (`createDefaultParams`)
holds the key `msToken` exactly when the token is non-empty, and then with
the token as its value; the same holds for the parameter map that
`setSessionParams` builds from a successful harvest. -/
theorem msToken_param_iff_token_nonempty (deviceId : Nat) (token userAgent language : String)
    (session : TikTokSession) :
    mapGet (createDefaultParams deviceId token) "msToken" =
      (if token = "" then none else some token) ∧
    ((mapGet (createDefaultParams deviceId token) "msToken").isSome = true ↔ token ≠ "") ∧
    (setSessionParams (.ok (userAgent, language)) deviceId session).map
        (fun s => mapGet s.Params "msToken") =
      .ok (if session.MsToken = "" then none else some session.MsToken) ∧
    ((setSessionParams (.ok (userAgent, language)) deviceId session).map
        (fun s => (mapGet s.Params "msToken").isSome) =
      .ok (decide (session.MsToken ≠ ""))) := by
  have h1 : mapGet (createDefaultParams deviceId token) "msToken" =
      (if token = "" then none else some token) := by
    unfold createDefaultParams
    by_cases h : token = ""
    · simp [h, mapGet_defaultParamsLiteral]
    · simp [h, mapGet_mapSet_self]
  refine ⟨h1, ?_, ?_, ?_⟩
  · rw [h1]
    by_cases h : token = "" <;> simp [h]
  · unfold setSessionParams
    by_cases h : session.MsToken = ""
    · simp [h, Except.map, mapGet_harvestedParamsLiteral]
    · simp [h, Except.map, mapGet_mapSet_self]
  · unfold setSessionParams
    by_cases h : session.MsToken = ""
    · simp [h, Except.map, mapGet_harvestedParamsLiteral]
    · simp [h, Except.map, mapGet_mapSet_self]

/-! ## Metadata fetch on a payload without `musicInfo` -/

/-- C6: when the dispatch succeeds with a payload that has no `musicInfo` key
or whose `musicInfo` is not an object, `Info` returns that payload with a nil
error, stores it in `AsDict` and leaves every other field, `Title`,
`Duration` and `Original` among them, as it was. -/
theorem Info_without_musicInfo (arch : Float64 → Int) (s : Sound) (api : Dispatcher)
    (options : GoMap GoVal) (resp : JObj)
    (hapi : s.API = some api)
    (hresp : api 0 (infoCall s.ID options) = Res.ok (some resp))
    (hmi : asObject (mapGet resp "musicInfo") = none) :
    (Info arch s options).2 = Res.ok resp ∧
    (Info arch s options).1.AsDict = some resp ∧
    (Info arch s options).1.Title = s.Title ∧
    (Info arch s options).1.Duration = s.Duration ∧
    (Info arch s options).1.Original = s.Original ∧
    (Info arch s options).1.ID = s.ID := by
  have hinfo : Info arch s options = ({ s with AsDict := some resp }, Res.ok resp) := by
    unfold Info
    rw [hapi]
    simp only [hresp]
    unfold extractFromData
    simp only [hmi]
  rw [hinfo]
  exact ⟨rfl, rfl, rfl, rfl, rfl, rfl⟩

/-- C6 at an accessor with cached metadata and a payload without `musicInfo`. -/
theorem Info_without_musicInfo_witness :
    sampleSound.API = some sampleDispatcher ∧
    sampleDispatcher 0 (infoCall sampleSound.ID []) = Res.ok (some samplePayload) ∧
    asObject (mapGet samplePayload "musicInfo") = none ∧
    ((Info (fun _ => 0) sampleSound []).2 = Res.ok samplePayload ∧
     (Info (fun _ => 0) sampleSound []).1.AsDict = some samplePayload ∧
     (Info (fun _ => 0) sampleSound []).1.Title = "old title" ∧
     (Info (fun _ => 0) sampleSound []).1.Duration = 42 ∧
     (Info (fun _ => 0) sampleSound []).1.Original = true ∧
     (Info (fun _ => 0) sampleSound []).1.ID = "7016547803243022337") :=
  ⟨rfl, rfl, rfl,
    Info_without_musicInfo (fun _ => 0) sampleSound sampleDispatcher [] samplePayload rfl rfl rfl⟩

/-! ## Teardown -/

theorem closeLoop_eq (sessions : List TikTokSession) (w : World) :
    closeLoop sessions w =
      some { w with cancelled := w.cancelled ++ sessions.filterMap liveHandle } := by
  induction sessions generalizing w with
  | nil => simp [closeLoop]
  | cons session rest ih =>
    unfold closeLoop
    cases hb : session.BrowserFree with
    | true => simp [liveHandle, hb, ih]
    | false =>
      cases hc : session.CancelFunc with
      | none => simp [liveHandle, hb, hc, ih]
      | some h => simp [liveHandle, hb, hc, callCancel, ih]

theorem count_filterMap_liveHandle (sessions : List TikTokSession) (h : Nat) :
    (sessions.filterMap liveHandle).count h =
      (sessions.filter
        (fun s => decide (s.BrowserFree = false ∧ s.CancelFunc = some h))).length := by
  induction sessions with
  | nil => simp
  | cons session rest ih =>
    cases hb : session.BrowserFree with
    | true => simp [List.filterMap_cons, List.filter_cons, liveHandle, hb, ih]
    | false =>
      cases hc : session.CancelFunc with
      | none => simp [List.filterMap_cons, List.filter_cons, liveHandle, hb, hc, ih]
      | some h' =>
        by_cases hh : h' = h
        · simp [List.filterMap_cons, List.filter_cons, liveHandle, hb, hc, ih, hh]
        · simp [List.filterMap_cons, List.filter_cons, List.count_cons, liveHandle, hb, hc, ih, hh]

/-- C10: for every pool, `Close` does not panic, invokes one cancel handle per
live session, in pool order (so each handle as often as live sessions hold
it) and none for a browser-free session, touches nothing else in the world and
leaves the pool empty; a second `Close` right after does not panic either,
cancels nothing and leaves world and client as the first one left them. -/
theorem Close_cancels_live_then_idempotent (w : World) (api : TikTokAPI) :
    ∃ w' api',
      Close w api = Res.ok (w', api') ∧
      api'.Sessions = [] ∧ api'.Headless = api.Headless ∧ api'.BrowserFree = api.BrowserFree ∧
      w'.cancelled = w.cancelled ++ api.Sessions.filterMap liveHandle ∧
      (∀ h, (api.Sessions.filterMap liveHandle).count h =
        (api.Sessions.filter
          (fun s => decide (s.BrowserFree = false ∧ s.CancelFunc = some h))).length) ∧
      w'.launches = w.launches ∧ w'.slept = w.slept ∧ w'.randDrawn = w.randDrawn ∧
      Close w' api' = Res.ok (w', api') := by
  refine ⟨{ w with cancelled := w.cancelled ++ api.Sessions.filterMap liveHandle },
    { api with Sessions := [] }, ?_, rfl, rfl, rfl, rfl, ?_, rfl, rfl, rfl, ?_⟩
  · simp [Close, closeLoop_eq]
  · intro h
    exact count_filterMap_liveHandle api.Sessions h
  · simp [Close, closeLoop]

/-! ## Session creation -/

/-- Where the difference does not fall below the smallest `int`, the Go
subtraction is the plain one. -/
theorem intSubLen_eq (a : Int) (len : Nat) (h : -(2 ^ 63) ≤ a - (len : Int)) :
    intSubLen a len = a - (len : Int) := by
  unfold intSubLen
  rw [if_neg (by omega)]

theorem browserFreeLoop_spec (br : Browser) (tokens : List String) :
    ∀ (steps i : Nat) (w : World) (sessions : List TikTokSession),
      i + steps ≤ tokens.length →
      ∃ w' new, browserFreeLoop br tokens steps i w sessions = Res.ok (w', sessions ++ new) ∧
        w'.launches = w.launches ∧ w'.cancelled = w.cancelled ∧ w'.slept = w.slept ∧
        new.map (fun s => s.MsToken) =
          ((tokens.drop i).take steps).filter (fun t => decide (t ≠ "")) ∧
        ∀ s ∈ new, s.BrowserFree = true ∧ s.Context = none ∧ s.CancelFunc = none := by
  intro steps
  induction steps with
  | zero =>
    intro i w sessions _
    exact ⟨w, [], by simp [browserFreeLoop], rfl, rfl, rfl, by simp, by simp⟩
  | succ steps ih =>
    intro i w sessions hle
    have hi : i < tokens.length := by omega
    have hget : tokens[i]? = some tokens[i] := List.getElem?_eq_getElem hi
    have hdrop : (tokens.drop i).take (steps + 1) =
        tokens[i] :: (tokens.drop (i + 1)).take steps := by
      rw [List.drop_eq_getElem_cons hi, List.take_succ_cons]
    unfold browserFreeLoop
    rw [hget]
    by_cases htok : tokens[i] = ""
    · obtain ⟨w', new, hrun, h1, h2, h3, h4, h5⟩ := ih (i + 1) w sessions (by omega)
      refine ⟨w', new, ?_, h1, h2, h3, ?_, h5⟩
      · simp [htok, hrun]
      · rw [hdrop, h4]
        simp [List.filter_cons, htok]
    · obtain ⟨w', new, hrun, h1, h2, h3, h4, h5⟩ :=
        ih (i + 1) { w with randDrawn := w.randDrawn + 1 }
          (sessions ++ [TikTokSession.mk none none (tokens[i]) "" createDefaultHeaders
            (createDefaultParams (br.rand63 w.randDrawn) (tokens[i]))
            "https://www.tiktok.com" true]) (by omega)
      refine ⟨w', TikTokSession.mk none none (tokens[i]) "" createDefaultHeaders
            (createDefaultParams (br.rand63 w.randDrawn) (tokens[i]))
            "https://www.tiktok.com" true :: new, ?_, h1, h2, h3, ?_, ?_⟩
      · simp only [htok, if_false]
        rw [hrun]
        simp
      · rw [hdrop]
        simp [List.filter_cons, htok, h4]
      · intro s hs
        rcases List.mem_cons.mp hs with rfl | hs
        · exact ⟨rfl, rfl, rfl⟩
        · exact h5 s hs

/-- A launch whose navigation and harvest succeed yields a session carrying
the token it was given, and starts exactly one browser. -/
theorem createSession_ok (br : Browser) (api : TikTokAPI) (w : World)
    (startURL msToken proxy : String) (sleepAfter : Int)
    (hnav : br.navigate w.launches.length = none)
    (hharv : ∃ p, br.harvest w.launches.length = .ok p) :
    ∃ w' s, createSession br api w startURL msToken proxy sleepAfter = (w', Res.ok s) ∧
      w'.launches = w.launches ++ [Launch.mk startURL api.Headless proxy] ∧
      s.MsToken = msToken := by
  obtain ⟨⟨ua, lang⟩, hh⟩ := hharv
  unfold createSession
  simp only [hnav, hh, setSessionParams]
  by_cases hd : api.BrowserFree = true ∧ msToken ≠ ""
  · rw [if_pos hd]
    exact ⟨_, _, rfl, rfl, rfl⟩
  · rw [if_neg hd]
    exact ⟨_, _, rfl, rfl, rfl⟩

theorem liveLoop_all_ok (br : Browser) (tokens : List String) (sleepAfter : Int)
    (hlaunch : ∀ n, br.navigate n = none ∧ ∃ p, br.harvest n = .ok p) :
    ∀ (steps i : Nat) (w : World) (api : TikTokAPI),
      ∃ w' live, liveLoop br tokens sleepAfter steps i w api =
          (w', { api with Sessions := api.Sessions ++ live }, Res.ok ()) ∧
        live.length = steps ∧ w'.launches.length = w.launches.length + steps := by
  intro steps
  induction steps with
  | zero =>
    intro i w api
    exact ⟨w, [], by simp [liveLoop], rfl, rfl⟩
  | succ steps ih =>
    intro i w api
    obtain ⟨w₁, s, hcs, hl, _⟩ := createSession_ok br api w "https://www.tiktok.com"
      (liveToken tokens i) "" sleepAfter (hlaunch _).1 (hlaunch _).2
    obtain ⟨w', live, hrun, hlen, hlaunches⟩ :=
      ih (i + 1) { w₁ with slept := w₁.slept ++ [sleepAfter] }
        { api with Sessions := api.Sessions ++ [s] }
    refine ⟨w', s :: live, ?_, by simp [hlen], ?_⟩
    · unfold liveLoop
      rw [hcs]
      simp only [hrun]
      simp
    · rw [hlaunches]
      simp [hl]
      omega

/-- C8: with `BrowserFree` set, an empty pool and a list of N non-empty
tokens, `CreateSessions(N, tokens)` returns nil without launching a browser
(or cancelling or sleeping), and the pool then holds N sessions, all
browser-free and without context or cancel handle, the i-th carrying the
i-th token. -/
theorem CreateSessions_all_tokens_browser_free (br : Browser) (w : World) (api : TikTokAPI)
    (tokens : List String) (sleepAfter : Int)
    (hbf : api.BrowserFree = true) (hempty : api.Sessions = [])
    (hne : ∀ t ∈ tokens, t ≠ "") :
    (CreateSessions br w api tokens.length tokens sleepAfter).2.2 = Res.ok () ∧
    (CreateSessions br w api tokens.length tokens sleepAfter).1.launches = w.launches ∧
    (CreateSessions br w api tokens.length tokens sleepAfter).1.cancelled = w.cancelled ∧
    (CreateSessions br w api tokens.length tokens sleepAfter).2.1.Sessions.length
      = tokens.length ∧
    (CreateSessions br w api tokens.length tokens sleepAfter).2.1.Sessions.map
      (fun s => s.MsToken) = tokens ∧
    (∀ s ∈ (CreateSessions br w api tokens.length tokens sleepAfter).2.1.Sessions,
      s.BrowserFree = true ∧ s.Context = none ∧ s.CancelFunc = none) := by
  obtain ⟨w', new, hrun, h1, h2, _, h4, h5⟩ :=
    browserFreeLoop_spec br tokens tokens.length 0 w [] (by omega)
  have hfilter : (tokens.filter (fun t => decide (t ≠ ""))) = tokens := by
    apply List.filter_eq_self.mpr
    intro t ht
    simpa using hne t ht
  have hmap : new.map (fun s => s.MsToken) = tokens := by
    rw [h4]
    simpa using hfilter
  have hlen : new.length = tokens.length := by
    have := congrArg List.length hmap
    simpa using this
  have hcs : CreateSessions br w api tokens.length tokens sleepAfter =
      (w', { api with Sessions := new }, Res.ok ()) := by
    unfold CreateSessions
    simp [hbf, hempty, hrun, hlen]
  rw [hcs]
  exact ⟨rfl, h1, h2, hlen, hmap, h5⟩

/-- C8 at two non-empty tokens on a new client that prefers browser-free
sessions. -/
theorem CreateSessions_all_tokens_browser_free_witness :
    sampleClient.BrowserFree = true ∧ sampleClient.Sessions = [] ∧
    (∀ t ∈ sampleTokens, t ≠ "") ∧
    ((CreateSessions sampleBrowser sampleWorld sampleClient sampleTokens.length sampleTokens 1).2.2
        = Res.ok () ∧
     (CreateSessions sampleBrowser sampleWorld sampleClient sampleTokens.length sampleTokens 1).1.launches
        = sampleWorld.launches ∧
     (CreateSessions sampleBrowser sampleWorld sampleClient sampleTokens.length sampleTokens 1).1.cancelled
        = sampleWorld.cancelled ∧
     (CreateSessions sampleBrowser sampleWorld sampleClient sampleTokens.length sampleTokens
        1).2.1.Sessions.length = sampleTokens.length ∧
     (CreateSessions sampleBrowser sampleWorld sampleClient sampleTokens.length sampleTokens
        1).2.1.Sessions.map (fun s => s.MsToken) = sampleTokens ∧
     (∀ s ∈ (CreateSessions sampleBrowser sampleWorld sampleClient sampleTokens.length
        sampleTokens 1).2.1.Sessions,
        s.BrowserFree = true ∧ s.Context = none ∧ s.CancelFunc = none)) :=
  ⟨rfl, rfl, by decide,
    CreateSessions_all_tokens_browser_free sampleBrowser sampleWorld sampleClient sampleTokens 1
      rfl rfl (by decide)⟩

/-- C9: with `BrowserFree` set, an empty pool, N >= 0, fewer than N non-empty
tokens and every live launch succeeding, `CreateSessions(N, tokens)` returns
nil with exactly N sessions in the pool: the sessions built directly from
tokens followed by live-launched ones, and the number of browsers launched is
N minus the number of directly built sessions. The directly built sessions
are as many as there are non-empty tokens among the first N when at least N
tokens were supplied, and none otherwise. -/
theorem CreateSessions_falls_back_to_live (br : Browser) (w : World) (api : TikTokAPI)
    (N : Int) (tokens : List String) (sleepAfter : Int)
    (hN : 0 ≤ N) (hbf : api.BrowserFree = true) (hempty : api.Sessions = [])
    (hfew : ((tokens.filter (fun t => decide (t ≠ ""))).length : Int) < N)
    (hlaunch : ∀ n, br.navigate n = none ∧ ∃ p, br.harvest n = .ok p) :
    (CreateSessions br w api N tokens sleepAfter).2.2 = Res.ok () ∧
    ((CreateSessions br w api N tokens sleepAfter).2.1.Sessions.length : Int) = N ∧
    ((CreateSessions br w api N tokens sleepAfter).1.launches.length : Int) =
      w.launches.length + (N - (directSessions br w api N tokens).length) ∧
    (∃ live, (CreateSessions br w api N tokens sleepAfter).2.1.Sessions =
        directSessions br w api N tokens ++ live ∧
      (live.length : Int) = N - (directSessions br w api N tokens).length) ∧
    (directSessions br w api N tokens).length =
      (if (tokens.length : Int) ≥ N then
        ((tokens.take N.toNat).filter (fun t => decide (t ≠ ""))).length
      else 0) := by
  by_cases hge : (tokens.length : Int) ≥ N
  · obtain ⟨w₁, new, hrun, _, _, _, h4, _⟩ :=
      browserFreeLoop_spec br tokens N.toNat 0 w [] (by omega)
    have hlen : new.length =
        ((tokens.take N.toNat).filter (fun t => decide (t ≠ ""))).length := by
      have := congrArg List.length h4
      simpa using this
    have hsub : ((tokens.take N.toNat).filter (fun t => decide (t ≠ ""))).length ≤
        (tokens.filter (fun t => decide (t ≠ ""))).length :=
      ((List.take_sublist N.toNat tokens).filter _).length_le
    have hlt : (new.length : Int) < N := by omega
    have hds : directSessions br w api N tokens = new := by
      unfold directSessions
      rw [if_pos ⟨hbf, hge⟩, hempty, hrun]
      simp
    have hrem : intSubLen N new.length = N - (new.length : Int) :=
      intSubLen_eq N new.length (by omega)
    obtain ⟨w₂, live, hlive, hlivelen, hlaunches⟩ :=
      liveLoop_all_ok br tokens sleepAfter hlaunch (intSubLen N new.length).toNat 0 w₁
        { api with Sessions := new }
    rw [hrem] at hlivelen hlaunches
    have hcs : CreateSessions br w api N tokens sleepAfter =
        (w₂, { api with Sessions := new ++ live }, Res.ok ()) := by
      unfold CreateSessions
      rw [if_pos ⟨hbf, hge⟩, hempty, hrun]
      simp only [List.nil_append]
      rw [if_neg (by omega), hlive]
    have hw₁ : w₁.launches = w.launches := by assumption
    rw [hcs, hds, if_pos hge]
    refine ⟨rfl, ?_, ?_, ⟨live, rfl, ?_⟩, hlen⟩
    · simp only [List.length_append]
      omega
    · simp only
      rw [hlaunches, hw₁]
      omega
    · omega
  · have hds : directSessions br w api N tokens = [] := by
      unfold directSessions
      rw [if_neg (fun h => hge h.2)]
    have hrem : intSubLen N api.Sessions.length = N - (api.Sessions.length : Int) :=
      intSubLen_eq N api.Sessions.length (by rw [hempty]; simp only [List.length_nil]; omega)
    obtain ⟨w₂, live, hlive, hlivelen, hlaunches⟩ :=
      liveLoop_all_ok br tokens sleepAfter hlaunch (intSubLen N api.Sessions.length).toNat 0
        w api
    have hcs : CreateSessions br w api N tokens sleepAfter =
        (w₂, { api with Sessions := api.Sessions ++ live }, Res.ok ()) := by
      unfold CreateSessions
      rw [if_neg (fun h => hge h.2), hlive]
    rw [hrem] at hlivelen hlaunches
    rw [hcs, hds, if_neg hge]
    rw [hempty] at hlivelen hlaunches
    simp only [List.length_nil] at hlivelen hlaunches
    refine ⟨rfl, ?_, ?_, ⟨live, ?_, ?_⟩, rfl⟩
    · simp only [hempty, List.nil_append]
      omega
    · simp only
      rw [hlaunches]
      simp only [List.length_nil]
      omega
    · simp [hempty]
    · simp only [List.length_nil]
      omega

/-- C9 at N = 2 with the tokens `tokenA` and the empty string: one session is
built directly and one browser is launched. -/
theorem CreateSessions_falls_back_to_live_witness :
    (0 : Int) ≤ 2 ∧ sampleClient.BrowserFree = true ∧ sampleClient.Sessions = [] ∧
    ((sampleTokensGap.filter (fun t => decide (t ≠ ""))).length : Int) < 2 ∧
    (∀ n, sampleBrowser.navigate n = none ∧ ∃ p, sampleBrowser.harvest n = .ok p) ∧
    ((CreateSessions sampleBrowser sampleWorld sampleClient 2 sampleTokensGap 1).2.2 = Res.ok () ∧
     ((CreateSessions sampleBrowser sampleWorld sampleClient 2 sampleTokensGap
        1).2.1.Sessions.length : Int) = 2 ∧
     ((CreateSessions sampleBrowser sampleWorld sampleClient 2 sampleTokensGap
        1).1.launches.length : Int) =
       sampleWorld.launches.length +
         (2 - (directSessions sampleBrowser sampleWorld sampleClient 2 sampleTokensGap).length) ∧
     (∃ live, (CreateSessions sampleBrowser sampleWorld sampleClient 2 sampleTokensGap
          1).2.1.Sessions =
          directSessions sampleBrowser sampleWorld sampleClient 2 sampleTokensGap ++ live ∧
        (live.length : Int) =
          2 - (directSessions sampleBrowser sampleWorld sampleClient 2 sampleTokensGap).length) ∧
     (directSessions sampleBrowser sampleWorld sampleClient 2 sampleTokensGap).length =
       (if (sampleTokensGap.length : Int) ≥ 2 then
         ((sampleTokensGap.take (2 : Int).toNat).filter (fun t => decide (t ≠ ""))).length
       else 0)) :=
  ⟨by decide, rfl, rfl, by decide, fun _ => ⟨rfl, _, rfl⟩,
    CreateSessions_falls_back_to_live sampleBrowser sampleWorld sampleClient 2 sampleTokensGap 1
      (by decide) rfl rfl (by decide) (fun _ => ⟨rfl, _, rfl⟩)⟩

/-! ## The video stream -/

/-- The send loop on a channel as large as `count`, entered with as many
values sent as counted: it never finds the channel full, it sends the
leading object items up to the count still missing, and it keeps counting
what it sent. -/
theorem sendItems_spec (count : Int) :
    ∀ (items : List JSON) (currentCount : Int) (sent : List JObj),
      (sent.length : Int) = currentCount → currentCount ≤ count →
      (sendItems count count items currentCount sent).1 ≠ SendEnd.blocked ∧
      (sendItems count count items currentCount sent).2.2 =
        sent ++ (objectItems items).take (count - currentCount).toNat ∧
      ((sendItems count count items currentCount sent).2.2.length : Int) =
        (sendItems count count items currentCount sent).2.1 ∧
      (sendItems count count items currentCount sent).2.1 ≤ count := by
  intro items
  induction items with
  | nil =>
    intro currentCount sent hlen hle
    simp [sendItems, objectItems, hlen, hle]
  | cons item rest ih =>
    intro currentCount sent hlen hle
    unfold sendItems
    by_cases hge : currentCount ≥ count
    · have heq : count - currentCount = 0 := by omega
      simp [hge, heq, hlen, hle]
    · rw [if_neg hge]
      cases hobj : asObject (some item) with
      | none =>
        have hIH := ih currentCount sent hlen hle
        have hoi : objectItems (item :: rest) = objectItems rest := by
          simp [objectItems, List.filterMap_cons, hobj]
        rw [hoi]
        exact hIH
      | some videoMap =>
        have hcap : (sent.length : Int) < count := by omega
        have hIH := ih (currentCount + 1) (sent ++ [videoMap]) (by simp [hlen]) (by omega)
        have hoi : objectItems (item :: rest) = videoMap :: objectItems rest := by
          simp [objectItems, List.filterMap_cons, hobj]
        have htn : (count - currentCount).toNat = (count - (currentCount + 1)).toNat + 1 := by
          omega
        simp only [if_pos hcap]
        rw [hoi, htn, List.take_succ_cons]
        refine ⟨hIH.1, ?_, hIH.2.2.1, hIH.2.2.2⟩
        rw [hIH.2.1]
        simp

/-- Once the count is reached the loop of `Videos` ends at once: the stream is
closed with no further request, whatever fuel is left. -/
theorem videosLoop_count_reached (arch : Float64 → Int) (api : Dispatcher) (id : String)
    (count : Int) (options : GoMap GoVal) (fuel n : Nat) (currentCount currentCursor : Int)
    (sent : List JObj) (calls : List Call) (h : ¬ currentCount < count) :
    videosLoop arch api id count options fuel n currentCount currentCursor sent calls =
      { sent := sent, calls := calls, status := StreamStatus.closed } := by
  cases fuel with
  | zero => simp [videosLoop, h]
  | succ fuel => simp [videosLoop, h]

theorem videosLoop_bounded (arch : Float64 → Int) (api : Dispatcher) (id : String)
    (count : Int) (options : GoMap GoVal) :
    ∀ (fuel n : Nat) (currentCount currentCursor : Int) (sent : List JObj) (calls : List Call),
      (sent.length : Int) = currentCount → currentCount ≤ count →
      ((videosLoop arch api id count options fuel n currentCount currentCursor sent
          calls).sent.length : Int) ≤ count ∧
      (videosLoop arch api id count options fuel n currentCount currentCursor sent
          calls).status ≠ StreamStatus.blocked := by
  intro fuel
  induction fuel with
  | zero =>
    intro n currentCount currentCursor sent calls hlen hle
    unfold videosLoop
    split <;> simp [hlen, hle]
  | succ fuel ih =>
    intro n currentCount currentCursor sent calls hlen hle
    have hbase : (sent.length : Int) ≤ count := by omega
    unfold videosLoop
    split
    · simp only
      split
      · exact ⟨hbase, by simp⟩
      · exact ⟨hbase, by simp⟩
      · exact ⟨hbase, by simp⟩
      · split
        · exact ⟨hbase, by simp⟩
        · rename_i itemList _
          split
          · exact ⟨hbase, by simp⟩
          · have hs := sendItems_spec count itemList currentCount sent hlen hle
            split
            · rename_i c' sent' heq
              rw [heq] at hs
              exact ⟨by have := hs.2.2.1; have := hs.2.2.2; simp only at *; omega, by simp⟩
            · rename_i c' sent' heq
              rw [heq] at hs
              exact absurd rfl hs.1
            · rename_i c' sent' heq
              rw [heq] at hs
              have hb : (sent'.length : Int) ≤ count := by
                have := hs.2.2.1; have := hs.2.2.2; simp only at *; omega
              split
              · exact ⟨hb, by simp⟩
              · exact ⟨hb, by simp⟩
              · split
                · exact ⟨hb, by simp⟩
                · exact ih _ _ _ _ _ hs.2.2.1 hs.2.2.2
    · exact ⟨hbase, by simp⟩

/-- C3: for every count >= 0, start cursor, options, dispatcher behaviour and
however long the goroutine has run (any fuel), `Videos` returns a stream on
which at most `count` values were sent, and the goroutine is never stuck in a
send, although the consumer receives nothing. -/
theorem Videos_sends_at_most_count (arch : Float64 → Int) (s : Sound) (api : Dispatcher)
    (count cursor : Int) (options : GoMap GoVal) (fuel : Nat)
    (hapi : s.API = some api) (hcount : 0 ≤ count) :
    ∃ stream, Videos arch s count cursor options fuel = Res.ok stream ∧
      (stream.sent.length : Int) ≤ count ∧ stream.status ≠ StreamStatus.blocked := by
  refine ⟨videosLoop arch api s.ID count options fuel 0 0 cursor [] [], ?_, ?_⟩
  · unfold Videos
    rw [hapi]
    simp only
    rw [if_neg (by omega)]
  · exact videosLoop_bounded arch api s.ID count options fuel 0 0 cursor [] [] rfl hcount

/-- C3 at count 2 against pages of three videos each, after up to five page
requests. -/
theorem Videos_sends_at_most_count_witness :
    samplePagedSound.API = some (fun _ _ => Res.ok (some samplePage)) ∧ (0 : Int) ≤ 2 ∧
    ∃ stream, Videos (fun _ => 0) samplePagedSound 2 0 [] 5 = Res.ok stream ∧
      (stream.sent.length : Int) ≤ 2 ∧ stream.status ≠ StreamStatus.blocked :=
  ⟨rfl, by decide,
    Videos_sends_at_most_count (fun _ => 0) samplePagedSound (fun _ _ => Res.ok (some samplePage))
      2 0 [] 5 rfl (by decide)⟩

/-- C4: for count >= 1, when the first page request succeeds with an item
list holding at least `count` object items, the stream is closed after that
single request with exactly the first `count` object items of the page, in
server order, whatever fuel is left for further pages. -/
theorem Videos_first_page_suffices (arch : Float64 → Int) (s : Sound) (api : Dispatcher)
    (count cursor : Int) (options : GoMap GoVal) (fuel : Nat) (resp : JObj)
    (itemList : List JSON)
    (hapi : s.API = some api) (hcount : 1 ≤ count)
    (hresp : api 0 (videosCall s.ID cursor options) = Res.ok (some resp))
    (hitems : asArray (mapGet resp "itemList") = some itemList)
    (hmany : count ≤ ((objectItems itemList).length : Int)) :
    Videos arch s count cursor options (fuel + 1) =
      Res.ok { sent := (objectItems itemList).take count.toNat,
               calls := [videosCall s.ID cursor options],
               status := StreamStatus.closed } ∧
    (((objectItems itemList).take count.toNat).length : Int) = count := by
  have htake : (((objectItems itemList).take count.toNat).length : Int) = count := by
    rw [List.length_take]
    omega
  refine ⟨?_, htake⟩
  have hne : itemList.length ≠ 0 := by
    intro h0
    have : itemList = [] := List.length_eq_zero.mp h0
    rw [this] at hmany
    simp [objectItems] at hmany
    omega
  have hs := sendItems_spec count itemList 0 [] rfl (by omega)
  simp only [List.nil_append, sub_zero] at hs
  unfold Videos
  rw [hapi]
  simp only
  rw [if_neg (by omega)]
  unfold videosLoop
  rw [if_pos (by omega)]
  simp only [List.nil_append, hresp, hitems, if_neg hne]
  have hcnt : (sendItems count count itemList 0 []).2.1 = count := by
    rw [← hs.2.2.1, hs.2.1]
    exact htake
  split
  · rename_i c' sent' heq
    rw [heq] at hs
    simp only at hs
    rw [hs.2.1]
  · rename_i c' sent' heq
    rw [heq] at hs
    exact absurd rfl hs.1
  · rename_i c' sent' heq
    rw [heq] at hs hcnt
    simp only at hs hcnt
    rw [hs.2.1]
    split
    · rfl
    · rfl
    · split
      · rfl
      · rw [videosLoop_count_reached _ _ _ _ _ _ _ _ _ _ _ (by omega)]

/-- C4 at count 2 against a first page of three videos that announces more
pages. -/
theorem Videos_first_page_suffices_witness :
    samplePagedSound.API = some (fun _ _ => Res.ok (some samplePage)) ∧ (1 : Int) ≤ 2 ∧
    asArray (mapGet samplePage "itemList") =
      some [JSON.obj [("id", JSON.str "v1")], JSON.str "noise",
        JSON.obj [("id", JSON.str "v2")], JSON.obj [("id", JSON.str "v3")]] ∧
    Videos (fun _ => 0) samplePagedSound 2 0 [] (4 + 1) =
      Res.ok { sent := [[("id", JSON.str "v1")], [("id", JSON.str "v2")]],
               calls := [videosCall samplePagedSound.ID 0 []],
               status := StreamStatus.closed } :=
  ⟨rfl, by decide, rfl,
    (Videos_first_page_suffices (fun _ => 0) samplePagedSound (fun _ _ => Res.ok (some samplePage))
      2 0 [] 4 samplePage
      [JSON.obj [("id", JSON.str "v1")], JSON.str "noise",
        JSON.obj [("id", JSON.str "v2")], JSON.obj [("id", JSON.str "v3")]]
      rfl (by decide) rfl rfl (by decide)).1⟩

/-- C5: a page whose item list is empty ends the stream, whatever its
`hasMore` and `cursor` fields say: from any point of the paging loop that
still lacks items, the request that brings the empty page is the last one and
nothing more is sent; when that page is the first one, a stream for any
count > 0 is closed with no item after exactly one request. -/
theorem Videos_empty_page_ends_stream (arch : Float64 → Int) (api : Dispatcher) (id : String)
    (count : Int) (options : GoMap GoVal) (fuel n : Nat) (currentCount currentCursor : Int)
    (sent : List JObj) (calls : List Call) (resp : JObj)
    (hlt : currentCount < count)
    (hresp : api n (videosCall id currentCursor options) = Res.ok (some resp))
    (hempty : asArray (mapGet resp "itemList") = some []) :
    videosLoop arch api id count options (fuel + 1) n currentCount currentCursor sent calls =
      { sent := sent, calls := calls ++ [videosCall id currentCursor options],
        status := StreamStatus.closed } ∧
    (∀ s : Sound, s.API = some api → s.ID = id → n = 0 → currentCount = 0 →
      Videos arch s count currentCursor options (fuel + 1) =
        Res.ok { sent := [], calls := [videosCall id currentCursor options],
                 status := StreamStatus.closed }) := by
  have hloop : ∀ (sent : List JObj) (calls : List Call),
      videosLoop arch api id count options (fuel + 1) n currentCount currentCursor sent calls =
        { sent := sent, calls := calls ++ [videosCall id currentCursor options],
          status := StreamStatus.closed } := by
    intro sent calls
    unfold videosLoop
    rw [if_pos hlt]
    simp [hresp, hempty]
  refine ⟨hloop sent calls, ?_⟩
  intro s hapi hid hn hc
  subst hid hn hc
  unfold Videos
  rw [hapi]
  simp only
  rw [if_neg (by omega), hloop]
  simp

/-- C5 at count 3 against a first page with an empty item list that announces
more pages. -/
theorem Videos_empty_page_ends_stream_witness :
    (0 : Int) < 3 ∧
    sampleEmptyPager 0 (videosCall sampleEmptySound.ID 0 []) = Res.ok (some sampleEmptyPage) ∧
    asArray (mapGet sampleEmptyPage "itemList") = some [] ∧
    Videos (fun _ => 0) sampleEmptySound 3 0 [] (4 + 1) =
      Res.ok { sent := [], calls := [videosCall sampleEmptySound.ID 0 []],
               status := StreamStatus.closed } :=
  ⟨by decide, rfl, rfl,
    (Videos_empty_page_ends_stream (fun _ => 0) sampleEmptyPager sampleEmptySound.ID 3 [] 4 0 0 0
      [] [] sampleEmptyPage (by decide) rfl rfl).2 sampleEmptySound rfl rfl rfl rfl⟩

/-! ## The request dispatcher: negative index, transport and decoding -/

theorem sessionAt_some_lt (sessions : List TikTokSession) (sessionIndex : Int)
    (session : TikTokSession) (hs : sessionAt sessions sessionIndex = some session) :
    sessionIndex < (sessions.length : Int) := by
  unfold sessionAt at hs
  by_cases hneg : sessionIndex < 0
  · simp [hneg] at hs
  · rw [if_neg hneg] at hs
    obtain ⟨hlt, _⟩ := List.getElem?_eq_some.mp hs
    omega

/-- C11 (defect): with two sessions in the pool and `sessionIndex = -1` the
range check `sessionIndex >= len(api.Sessions)` passes and the slice access
panics; no index error is returned. The accessor reaches this with the
option `session_index` set to -1: `Info` panics too. -/
theorem MakeRequest_negative_index_panics :
    MakeRequest sampleNet samplePool "https://www.tiktok.com/api/music/detail/"
        [("musicId", "7")] [] (-1) = (Res.panic, []) ∧
    (Info (fun _ => 0) samplePoolSound [("session_index", GoVal.int (-1))]).2 = Res.panic :=
  ⟨rfl, rfl⟩

/-- C14 (as stated, refuted): a response with status 404 whose body decodes
is returned as a decoded object with a nil error. -/
theorem MakeRequest_status_404_returns_object :
    sessionAt samplePool.Sessions 0 = some sampleLive ∧
    (MakeRequest sampleNet404 samplePool "https://www.tiktok.com/api/music/detail/"
        [("musicId", "7")] [] 0).1 = Res.ok (some []) :=
  ⟨rfl, rfl⟩

theorem makeHTTPRequest_outcome (net : Net) (session : TikTokSession) (urlStr : String)
    (params headers : StrMap) :
    (makeHTTPRequest net session urlStr params headers).1 ≠ Res.panic ∧
    ∀ out, (makeHTTPRequest net session urlStr params headers).1 = Res.ok out ↔
      ∃ req resp body, (makeHTTPRequest net session urlStr params headers).2 = [req] ∧
        net.roundTrip req = .ok resp ∧ resp.body = .ok body ∧ net.unmarshal body = .ok out := by
  unfold makeHTTPRequest
  cases hp : net.parse urlStr with
  | error e => simp
  | ok parsedURL =>
    simp only
    split
    · simp
    · cases hrt : net.roundTrip _ with
      | error e => simp [hrt]
      | ok resp =>
        cases hb : resp.body with
        | error e => simp [hrt, hb]
        | ok body =>
          cases hu : net.unmarshal body with
          | error e => simp [hrt, hb, hu]
          | ok result =>
            simp only [hrt, hb, hu]
            refine ⟨by simp, ?_⟩
            intro out
            constructor
            · intro h
              have hout : result = out := by simpa using h
              subst hout
              exact ⟨_, resp, body, rfl, hrt, hb, hu⟩
            · rintro ⟨req, resp', body', hreq, hrt', hb', hu'⟩
              have hreq' := (List.cons.inj hreq).1
              subst hreq'
              rw [hrt] at hrt'
              have h1 : resp = resp' := by simpa using hrt'
              subst h1
              rw [hb] at hb'
              have h2 : body = body' := by simpa using hb'
              subst h2
              rw [hu] at hu'
              have h3 : result = out := by simpa using hu'
              rw [h3]

/-- C14 (amended): for an in-range session `MakeRequest` never panics, and it
returns a decoded payload with a nil error exactly when a request was handed
to the transport, the transport returned a response, its body could be read
and the decoder accepted the body; in every other case (URL or request
construction error, transport error, read error, decode error) it returns an
error. The status code of the response plays no part. -/
theorem MakeRequest_succeeds_iff_exchange_decodes (net : Net) (api : TikTokAPI)
    (urlStr : String) (params headers : StrMap) (sessionIndex : Int) (session : TikTokSession)
    (hs : sessionAt api.Sessions sessionIndex = some session) :
    (MakeRequest net api urlStr params headers sessionIndex).1 ≠ Res.panic ∧
    (∀ out, (MakeRequest net api urlStr params headers sessionIndex).1 = Res.ok out ↔
      ∃ req resp body, (MakeRequest net api urlStr params headers sessionIndex).2 = [req] ∧
        net.roundTrip req = .ok resp ∧ resp.body = .ok body ∧ net.unmarshal body = .ok out) ∧
    ((∀ out, (MakeRequest net api urlStr params headers sessionIndex).1 ≠ Res.ok out) ↔
      ∃ e, (MakeRequest net api urlStr params headers sessionIndex).1 = Res.err e) := by
  rw [MakeRequest_in_range net api urlStr params headers sessionIndex session
    (sessionAt_some_lt _ _ _ hs) hs]
  have h := makeHTTPRequest_outcome net session urlStr params headers
  refine ⟨h.1, h.2, ?_⟩
  cases hres : (makeHTTPRequest net session urlStr params headers).1 with
  | ok out => simp
  | err e => simp
  | panic => exact absurd hres h.1

/-- C14 (amended) at the network that answers 404 with a body that decodes. -/
theorem MakeRequest_succeeds_iff_exchange_decodes_witness :
    sessionAt samplePool.Sessions 0 = some sampleLive ∧
    ((MakeRequest sampleNet404 samplePool "https://www.tiktok.com/api/music/detail/"
        [("musicId", "7")] [] 0).1 ≠ Res.panic ∧
     (∀ out, (MakeRequest sampleNet404 samplePool "https://www.tiktok.com/api/music/detail/"
        [("musicId", "7")] [] 0).1 = Res.ok out ↔
      ∃ req resp body, (MakeRequest sampleNet404 samplePool
          "https://www.tiktok.com/api/music/detail/" [("musicId", "7")] [] 0).2 = [req] ∧
        sampleNet404.roundTrip req = .ok resp ∧ resp.body = .ok body ∧
        sampleNet404.unmarshal body = .ok out) ∧
     ((∀ out, (MakeRequest sampleNet404 samplePool "https://www.tiktok.com/api/music/detail/"
        [("musicId", "7")] [] 0).1 ≠ Res.ok out) ↔
      ∃ e, (MakeRequest sampleNet404 samplePool "https://www.tiktok.com/api/music/detail/"
        [("musicId", "7")] [] 0).1 = Res.err e)) :=
  ⟨rfl, MakeRequest_succeeds_iff_exchange_decodes sampleNet404 samplePool
    "https://www.tiktok.com/api/music/detail/" [("musicId", "7")] [] 0 sampleLive rfl⟩

/-! ## Token hand-out of the second loop -/

/-- C12 (defect): with `BrowserFree` set, count 2 and the tokens `["a", ""]`
on an empty pool, every launch succeeding, the first loop builds a session
from token position 0 and the second loop, whose index starts again at 0,
hands the same position to the live session: the pool ends with two sessions
that both carry the token `a`, after one browser launch. -/
theorem CreateSessions_reuses_consumed_token :
    (CreateSessions sampleBrowser sampleWorld sampleClient 2 sampleTokensReuse 1).2.2 = Res.ok () ∧
    (directSessions sampleBrowser sampleWorld sampleClient 2 sampleTokensReuse).map
      (fun s => s.MsToken) = ["a"] ∧
    liveToken sampleTokensReuse 0 = "a" ∧
    (CreateSessions sampleBrowser sampleWorld sampleClient 2 sampleTokensReuse 1).2.1.Sessions.map
      (fun s => s.MsToken) = ["a", "a"] ∧
    (CreateSessions sampleBrowser sampleWorld sampleClient 2 sampleTokensReuse 1).1.launches.length
      = sampleWorld.launches.length + 1 :=
  ⟨rfl, by decide, by decide, by decide, by decide⟩

/-! ## Metadata fetch: extraction and failure -/

/-- C18: when the dispatch succeeds with a payload whose `musicInfo` is an
object, `Info` returns the payload with a nil error, stores it in `AsDict`,
and sets each cached field on its own: `Title` to `musicInfo.title` when that
is a string, `Duration` to the `int` conversion of `musicInfo.duration` when
that is a number (its truncation toward zero when that fits 64 bits),
`Original` to `musicInfo.original` when that is a boolean; a field whose key
is absent or of another type keeps its value. -/
theorem Info_extracts_musicInfo (arch : Float64 → Int) (s : Sound) (api : Dispatcher)
    (options : GoMap GoVal) (resp musicInfo : JObj)
    (hapi : s.API = some api)
    (hresp : api 0 (infoCall s.ID options) = Res.ok (some resp))
    (hmi : asObject (mapGet resp "musicInfo") = some musicInfo) :
    (Info arch s options).2 = Res.ok resp ∧
    (Info arch s options).1.AsDict = some resp ∧
    (Info arch s options).1.Title =
      (match asString (mapGet musicInfo "title") with
       | some title => title
       | none => s.Title) ∧
    (Info arch s options).1.Duration =
      (match asFloat (mapGet musicInfo "duration") with
       | some duration => floatToInt arch duration
       | none => s.Duration) ∧
    (∀ duration, asFloat (mapGet musicInfo "duration") = some duration →
      -(2 ^ 63) ≤ duration.trunc → duration.trunc < 2 ^ 63 →
      (Info arch s options).1.Duration = duration.trunc) ∧
    (Info arch s options).1.Original =
      (match asBool (mapGet musicInfo "original") with
       | some original => original
       | none => s.Original) ∧
    (Info arch s options).1.ID = s.ID := by
  have hinfo : Info arch s options =
      (extractFromData arch { s with AsDict := some resp }, Res.ok resp) := by
    unfold Info
    rw [hapi]
    simp only [hresp]
  rw [hinfo]
  refine ⟨rfl, ?_, ?_, ?_, ?_, ?_, ?_⟩
  · cases ht : asString (mapGet musicInfo "title") <;>
      cases hd : asFloat (mapGet musicInfo "duration") <;>
      cases ho : asBool (mapGet musicInfo "original") <;>
      simp [extractFromData, hmi, ht, hd, ho]
  · cases ht : asString (mapGet musicInfo "title") <;>
      cases hd : asFloat (mapGet musicInfo "duration") <;>
      cases ho : asBool (mapGet musicInfo "original") <;>
      simp [extractFromData, hmi, ht, hd, ho]
  · cases ht : asString (mapGet musicInfo "title") <;>
      cases hd : asFloat (mapGet musicInfo "duration") <;>
      cases ho : asBool (mapGet musicInfo "original") <;>
      simp [extractFromData, hmi, ht, hd, ho]
  · intro duration hd hlo hhi
    have hconv : floatToInt arch duration = duration.trunc := by
      unfold floatToInt
      rw [if_pos ⟨hlo, hhi⟩]
    cases ht : asString (mapGet musicInfo "title") <;>
      cases ho : asBool (mapGet musicInfo "original") <;>
      simp [extractFromData, hmi, ht, hd, ho, hconv]
  · cases ht : asString (mapGet musicInfo "title") <;>
      cases hd : asFloat (mapGet musicInfo "duration") <;>
      cases ho : asBool (mapGet musicInfo "original") <;>
      simp [extractFromData, hmi, ht, hd, ho]
  · cases ht : asString (mapGet musicInfo "title") <;>
      cases hd : asFloat (mapGet musicInfo "duration") <;>
      cases ho : asBool (mapGet musicInfo "original") <;>
      simp [extractFromData, hmi, ht, hd, ho]

/-- C18 at a payload with a title, a duration of 3.5 seconds and an
`original` field of the wrong type: the title is replaced, the duration
becomes 3 and `Original` keeps its value. -/
theorem Info_extracts_musicInfo_witness :
    sampleMusicSound.API = some (fun _ _ => Res.ok (some sampleMusicPayload)) ∧
    asObject (mapGet sampleMusicPayload "musicInfo") =
      some [("title", JSON.str "new title"),
        ("duration", JSON.num { mant := 7, exp := -1 }), ("original", JSON.str "yes")] ∧
    (Info (fun _ => 0) sampleMusicSound []).2 = Res.ok sampleMusicPayload ∧
    (Info (fun _ => 0) sampleMusicSound []).1.AsDict = some sampleMusicPayload ∧
    (Info (fun _ => 0) sampleMusicSound []).1.Title = "new title" ∧
    (Info (fun _ => 0) sampleMusicSound []).1.Duration = 3 ∧
    (Info (fun _ => 0) sampleMusicSound []).1.Original = true :=
  have h := Info_extracts_musicInfo (fun _ => 0) sampleMusicSound
    (fun _ _ => Res.ok (some sampleMusicPayload)) [] sampleMusicPayload
    [("title", JSON.str "new title"),
      ("duration", JSON.num { mant := 7, exp := -1 }), ("original", JSON.str "yes")]
    rfl rfl rfl
  ⟨rfl, rfl, h.1, h.2.1, h.2.2.1,
    h.2.2.2.2.1 { mant := 7, exp := -1 } rfl (by decide) (by decide), h.2.2.2.2.2.1⟩

/-- When the dispatch returns an error or a nil payload, `Info` returns an
error and leaves the accessor, with `ID`, `Title`, `Duration`, `Original`
and `AsDict`, as it was; this is the case when the accessor dispatches
through a client whose pool has no session at the chosen index or beyond
(an empty pool with the default index 0 among them), and then the error is
the index error. A negative index is not among these cases: there the
dispatch panics. -/
theorem Info_failure_leaves_accessor (arch : Float64 → Int) (s : Sound) (api : Dispatcher)
    (options : GoMap GoVal)
    (hapi : s.API = some api)
    (hfail : (∃ e, api 0 (infoCall s.ID options) = Res.err e) ∨
      api 0 (infoCall s.ID options) = Res.ok none) :
    (∃ e, (Info arch s options).2 = Res.err e) ∧
    (Info arch s options).1.ID = s.ID ∧
    (Info arch s options).1.Title = s.Title ∧
    (Info arch s options).1.Duration = s.Duration ∧
    (Info arch s options).1.Original = s.Original ∧
    (Info arch s options).1.AsDict = s.AsDict ∧
    (∀ (nets : Nat → Net) (pool : TikTokAPI), api = apiDispatcher nets pool →
      optSessionIndex options ≥ (pool.Sessions.length : Int) →
      (Info arch s options).2 = Res.err "session index out of range") := by
  have hstate : (Info arch s options).1 = s := by
    unfold Info
    rw [hapi]
    rcases hfail with ⟨e, he⟩ | hnil
    · simp only [he]
    · simp only [hnil]
  refine ⟨?_, by rw [hstate], by rw [hstate], by rw [hstate], by rw [hstate], by rw [hstate], ?_⟩
  · unfold Info
    rw [hapi]
    rcases hfail with ⟨e, he⟩ | hnil
    · exact ⟨e, by simp only [he]⟩
    · exact ⟨"TikTok returned an invalid response", by simp only [hnil]⟩
  · intro nets pool hd hge
    have hcall : api 0 (infoCall s.ID options) = Res.err "session index out of range" := by
      rw [hd]
      unfold apiDispatcher MakeRequest
      have : (infoCall s.ID options).sessionIndex = optSessionIndex options := rfl
      rw [this, if_pos hge]
    unfold Info
    rw [hapi]
    simp only [hcall]

/-- The failure of `Info` at an accessor with cached metadata whose client
has an empty pool, with the default session index. -/
theorem Info_failure_leaves_accessor_witness :
    sampleUnpooledSound.API = some (apiDispatcher (fun _ => sampleNet) NewTikTokAPI) ∧
    ((∃ e, apiDispatcher (fun _ => sampleNet) NewTikTokAPI 0
        (infoCall sampleUnpooledSound.ID []) = Res.err e) ∨
      apiDispatcher (fun _ => sampleNet) NewTikTokAPI 0
        (infoCall sampleUnpooledSound.ID []) = Res.ok none) ∧
    (Info (fun _ => 0) sampleUnpooledSound []).2 = Res.err "session index out of range" ∧
    (Info (fun _ => 0) sampleUnpooledSound []).1.Title = "old title" ∧
    (Info (fun _ => 0) sampleUnpooledSound []).1.Duration = 42 ∧
    (Info (fun _ => 0) sampleUnpooledSound []).1.Original = true ∧
    (Info (fun _ => 0) sampleUnpooledSound []).1.AsDict = none :=
  have h := Info_failure_leaves_accessor (fun _ => 0) sampleUnpooledSound
    (apiDispatcher (fun _ => sampleNet) NewTikTokAPI) [] rfl (Or.inl ⟨_, rfl⟩)
  ⟨rfl, Or.inl ⟨_, rfl⟩, h.2.2.2.2.2.2 (fun _ => sampleNet) NewTikTokAPI rfl (by decide),
    h.2.2.1, h.2.2.2.1, h.2.2.2.2.1, h.2.2.2.2.2.1⟩

/-- C20 (defect): with the option `session_index` set to -1, an index out of
range for the pool of two sessions, the dispatch neither returns an error
nor a nil payload: the range check of `MakeRequest` lets -1 pass, the slice
access panics and so does `Info`, which returns no error at all. -/
theorem Info_negative_index_returns_no_error :
    optSessionIndex [("session_index", GoVal.int (-1))] = -1 ∧
    sessionAt samplePool.Sessions (-1) = none ∧
    (Info (fun _ => 0) samplePoolSound [("session_index", GoVal.int (-1))]).2 = Res.panic ∧
    ¬ ∃ e, (Info (fun _ => 0) samplePoolSound [("session_index", GoVal.int (-1))]).2 =
      Res.err e := by
  refine ⟨by decide, by decide, rfl, ?_⟩
  rintro ⟨e, h⟩
  have hp : (Info (fun _ => 0) samplePoolSound [("session_index", GoVal.int (-1))]).2 =
      Res.panic := rfl
  rw [hp] at h
  cases h

/-! ## The mode invariant of created sessions -/

theorem createSession_invariant (br : Browser) (api : TikTokAPI) (w : World)
    (startURL msToken proxy : String) (sleepAfter : Int) (w' : World) (s : TikTokSession)
    (h : createSession br api w startURL msToken proxy sleepAfter = (w', Res.ok s)) :
    ModeInvariant s := by
  unfold createSession at h
  cases hnav : br.navigate w.launches.length with
  | some e => simp [hnav] at h
  | none =>
    cases hh : br.harvest w.launches.length with
    | error e => simp [hnav, hh, setSessionParams] at h
    | ok p =>
      obtain ⟨ua, lang⟩ := p
      simp only [hnav, hh, setSessionParams] at h
      by_cases hd : api.BrowserFree = true ∧ msToken ≠ ""
      · rw [if_pos hd] at h
        simp only [callCancel, Prod.mk.injEq, Res.ok.injEq] at h
        rw [← h.2]
        exact ⟨fun _ => ⟨rfl, rfl⟩, fun hf => by simp at hf⟩
      · rw [if_neg hd] at h
        simp only [Prod.mk.injEq, Res.ok.injEq] at h
        rw [← h.2]
        exact ⟨fun hf => by simp at hf, fun _ => ⟨_, rfl, rfl⟩⟩

theorem liveLoop_invariant (br : Browser) (tokens : List String) (sleepAfter : Int) :
    ∀ (steps i : Nat) (w : World) (api : TikTokAPI),
      ∃ added, (liveLoop br tokens sleepAfter steps i w api).2.1.Sessions =
          api.Sessions ++ added ∧
        ∀ s ∈ added, ModeInvariant s := by
  intro steps
  induction steps with
  | zero =>
    intro i w api
    exact ⟨[], by simp [liveLoop], by simp⟩
  | succ steps ih =>
    intro i w api
    unfold liveLoop
    cases hcs : createSession br api w "https://www.tiktok.com" (liveToken tokens i) ""
        sleepAfter with
    | mk w₁ r =>
      cases r with
      | err e => exact ⟨[], by simp, by simp⟩
      | panic => exact ⟨[], by simp, by simp⟩
      | ok session =>
        obtain ⟨added, hadd, hinv⟩ := ih (i + 1) { w₁ with slept := w₁.slept ++ [sleepAfter] }
          { api with Sessions := api.Sessions ++ [session] }
        refine ⟨session :: added, ?_, ?_⟩
        · simp only
          rw [hadd]
          simp
        · intro s hs
          rcases List.mem_cons.mp hs with rfl | hs
          · exact createSession_invariant br api w _ _ _ sleepAfter w₁ s hcs
          · exact hinv s hs

theorem browserFreeLoop_invariant (br : Browser) (tokens : List String) :
    ∀ (steps i : Nat) (w : World) (sessions : List TikTokSession) (w' : World)
      (sessions' : List TikTokSession),
      browserFreeLoop br tokens steps i w sessions = Res.ok (w', sessions') →
      ∃ added, sessions' = sessions ++ added ∧ ∀ s ∈ added, ModeInvariant s := by
  intro steps
  induction steps with
  | zero =>
    intro i w sessions w' sessions' h
    simp only [browserFreeLoop, Res.ok.injEq, Prod.mk.injEq] at h
    exact ⟨[], by simp [h.2], by simp⟩
  | succ steps ih =>
    intro i w sessions w' sessions' h
    unfold browserFreeLoop at h
    cases hget : tokens[i]? with
    | none => simp [hget] at h
    | some tok =>
      simp only [hget] at h
      by_cases htok : tok = ""
      · rw [if_pos htok] at h
        exact ih (i + 1) w sessions w' sessions' h
      · rw [if_neg htok] at h
        obtain ⟨added, hadd, hinv⟩ := ih (i + 1) _ _ w' sessions' h
        refine ⟨TikTokSession.mk none none tok "" createDefaultHeaders
          (createDefaultParams (br.rand63 w.randDrawn) tok) "https://www.tiktok.com" true
          :: added, by rw [hadd]; simp, ?_⟩
        intro s hs
        rcases List.mem_cons.mp hs with rfl | hs
        · exact ⟨fun _ => ⟨rfl, rfl⟩, fun hf => by simp at hf⟩
        · exact hinv s hs

/-- C19: whatever the browser does, the sessions that a `CreateSessions` call
appends to the pool all satisfy the mode invariant; and a launch that
succeeds on a client with `BrowserFree` set and a non-empty token is demoted:
its context is cancelled and the session returned is browser-free, holds no
context and no cancel handle, and carries the token and exactly the headers
and parameters that `setSessionParams` harvested. -/
theorem CreateSessions_mode_invariant (br : Browser) (w : World) (api : TikTokAPI)
    (numSessions : Int) (msTokens : List String) (sleepAfter : Int) :
    (∃ added, (CreateSessions br w api numSessions msTokens sleepAfter).2.1.Sessions =
        api.Sessions ++ added ∧
      ∀ s ∈ added, ModeInvariant s) ∧
    (∀ (w₀ : World) (startURL token proxy userAgent language : String),
      api.BrowserFree = true → token ≠ "" →
      br.navigate w₀.launches.length = none →
      br.harvest w₀.launches.length = .ok (userAgent, language) →
      createSession br api w₀ startURL token proxy sleepAfter =
        ({ launches := w₀.launches ++ [Launch.mk startURL api.Headless proxy],
           cancelled := w₀.cancelled ++ [w₀.launches.length],
           slept := w₀.slept ++ [sleepAfter],
           randDrawn := w₀.randDrawn + 1 },
         Res.ok { Context := none, CancelFunc := none, MsToken := token, Proxy := "",
                  Headers := harvestedHeaders userAgent language,
                  Params := mapSet (harvestedParamsLiteral userAgent language
                    (br.rand63 w₀.randDrawn)) "msToken" token,
                  BaseURL := "https://www.tiktok.com", BrowserFree := true })) := by
  constructor
  · unfold CreateSessions
    by_cases hc : api.BrowserFree = true ∧ (msTokens.length : Int) ≥ numSessions
    · rw [if_pos hc]
      cases hbl : browserFreeLoop br msTokens numSessions.toNat 0 w api.Sessions with
      | panic => exact ⟨[], by simp, by simp⟩
      | err e => exact ⟨[], by simp, by simp⟩
      | ok r =>
        obtain ⟨w₁, sessions⟩ := r
        obtain ⟨added, hadd, hinv⟩ :=
          browserFreeLoop_invariant br msTokens _ _ _ _ w₁ sessions hbl
        simp only
        split
        · exact ⟨added, hadd, hinv⟩
        · obtain ⟨added', hadd', hinv'⟩ := liveLoop_invariant br msTokens sleepAfter
            (intSubLen numSessions sessions.length).toNat 0 w₁ { api with Sessions := sessions }
          refine ⟨added ++ added', ?_, ?_⟩
          · rw [hadd']
            simp [hadd]
          · intro s hs
            rcases List.mem_append.mp hs with hs | hs
            · exact hinv s hs
            · exact hinv' s hs
    · rw [if_neg hc]
      exact liveLoop_invariant br msTokens sleepAfter _ 0 w api
  · intro w₀ startURL token proxy userAgent language hbf htok hnav hharv
    unfold createSession
    simp only [hnav, hharv, setSessionParams]
    rw [if_pos ⟨hbf, htok⟩]
    simp [callCancel, htok]

/-- C19 at count 2 with the tokens `["a", ""]` on a client that prefers
browser-free sessions, and at the demotion of a launch with the token `a`. -/
theorem CreateSessions_mode_invariant_witness :
    (∃ added, (CreateSessions sampleBrowser sampleWorld sampleClient 2 sampleTokensReuse
        1).2.1.Sessions = sampleClient.Sessions ++ added ∧
      ∀ s ∈ added, ModeInvariant s) ∧
    createSession sampleBrowser sampleClient sampleWorld "https://www.tiktok.com" "a" "" 1 =
      ({ launches := sampleWorld.launches ++ [Launch.mk "https://www.tiktok.com" true ""],
         cancelled := [1], slept := [1], randDrawn := 1 },
       Res.ok { Context := none, CancelFunc := none, MsToken := "a", Proxy := "",
                Headers := harvestedHeaders "Mozilla/5.0" "en-US",
                Params := mapSet (harvestedParamsLiteral "Mozilla/5.0" "en-US" 0) "msToken" "a",
                BaseURL := "https://www.tiktok.com", BrowserFree := true }) :=
  have h := CreateSessions_mode_invariant sampleBrowser sampleWorld sampleClient 2
    sampleTokensReuse 1
  ⟨h.1, h.2 sampleWorld "https://www.tiktok.com" "a" "" "Mozilla/5.0" "en-US" rfl (by decide)
    rfl rfl⟩

/-! ## The paging loop, round by round -/

/-- The loop of `Videos` with fuel for one more request runs one round and
then either stops or goes on with the fuel left. -/
theorem videosLoop_succ (arch : Float64 → Int) (api : Dispatcher) (id : String) (count : Int)
    (options : GoMap GoVal) (fuel n : Nat) (currentCount currentCursor : Int)
    (sent : List JObj) (calls : List Call) :
    videosLoop arch api id count options (fuel + 1) n currentCount currentCursor sent calls =
      if currentCount < count then
        match pageStep arch api id count options n currentCount currentCursor sent with
        | PageEnd.stop status sent' =>
          { sent := sent', calls := calls ++ [videosCall id currentCursor options],
            status := status }
        | PageEnd.next currentCount' currentCursor' sent' =>
          videosLoop arch api id count options fuel (n + 1) currentCount' currentCursor' sent'
            (calls ++ [videosCall id currentCursor options])
      else { sent := sent, calls := calls, status := StreamStatus.closed } := by
  by_cases hlt : currentCount < count
  · rw [if_pos hlt]
    conv_lhs => unfold videosLoop
    unfold pageStep
    rw [if_pos hlt]
    simp only
    split
    · rfl
    · rfl
    · rfl
    · split
      · rfl
      · split
        · rfl
        · split
          · rfl
          · rfl
          · split
            · rfl
            · rfl
            · split
              · rfl
              · rfl
  · rw [if_neg hlt]
    unfold videosLoop
    rw [if_neg hlt]

/-- What one round of the paging loop can do, entered with as many values
sent as counted: it stops with the stream closed, it dies because the
dispatcher panicked, or it goes on after a page that had a non-empty item
list, `hasMore` true and a numeric cursor, having sent the leading object
items of that page up to the count still missing. -/
theorem pageStep_cases (arch : Float64 → Int) (api : Dispatcher) (id : String) (count : Int)
    (options : GoMap GoVal) (n : Nat) (currentCount currentCursor : Int) (sent : List JObj)
    (hlen : (sent.length : Int) = currentCount) (hle : currentCount ≤ count) :
    (∃ status sent', pageStep arch api id count options n currentCount currentCursor sent =
        PageEnd.stop status sent' ∧
      (status = StreamStatus.closed ∨
        (status = StreamStatus.crashed ∧
          api n (videosCall id currentCursor options) = Res.panic))) ∨
    (∃ currentCount' resp cursor itemList,
      pageStep arch api id count options n currentCount currentCursor sent =
        PageEnd.next currentCount' (floatToInt arch cursor)
          (sent ++ (objectItems itemList).take (count - currentCount).toNat) ∧
      api n (videosCall id currentCursor options) = Res.ok (some resp) ∧
      asArray (mapGet resp "itemList") = some itemList ∧ itemList ≠ [] ∧
      asBool (mapGet resp "hasMore") = some true ∧
      asFloat (mapGet resp "cursor") = some cursor ∧
      (((sent ++ (objectItems itemList).take (count - currentCount).toNat).length : Nat) : Int)
        = currentCount' ∧
      currentCount' ≤ count) := by
  unfold pageStep
  cases hres : api n (videosCall id currentCursor options) with
  | panic => exact Or.inl ⟨_, _, rfl, Or.inr ⟨rfl, rfl⟩⟩
  | err e => exact Or.inl ⟨_, _, rfl, Or.inl rfl⟩
  | ok payload =>
    cases payload with
    | none => exact Or.inl ⟨_, _, rfl, Or.inl rfl⟩
    | some resp =>
      simp only
      cases harr : asArray (mapGet resp "itemList") with
      | none => exact Or.inl ⟨_, _, rfl, Or.inl rfl⟩
      | some itemList =>
        simp only
        by_cases hz : itemList.length = 0
        · rw [if_pos hz]
          exact Or.inl ⟨_, _, rfl, Or.inl rfl⟩
        · rw [if_neg hz]
          have hs := sendItems_spec count itemList currentCount sent hlen hle
          rcases hsi : sendItems count count itemList currentCount sent with ⟨e, c', sent'⟩
          rw [hsi] at hs
          simp only at hs
          cases e with
          | blocked => exact absurd rfl hs.1
          | returned => exact Or.inl ⟨_, _, rfl, Or.inl rfl⟩
          | finished =>
            simp only
            cases hmore : asBool (mapGet resp "hasMore") with
            | none => exact Or.inl ⟨_, _, rfl, Or.inl rfl⟩
            | some b =>
              cases b with
              | false => exact Or.inl ⟨_, _, rfl, Or.inl rfl⟩
              | true =>
                simp only
                cases hcur : asFloat (mapGet resp "cursor") with
                | none => exact Or.inl ⟨_, _, rfl, Or.inl rfl⟩
                | some cursor =>
                  refine Or.inr ⟨c', resp, cursor, itemList, ?_, rfl, harr, ?_, hmore, hcur, ?_,
                    hs.2.2.2⟩
                  · simp only
                    rw [hs.2.1]
                  · intro hnil
                    exact hz (by rw [hnil]; rfl)
                  · rw [← hs.2.1]
                    exact hs.2.2.1

/-- A round that meets a page without a further page (`hasMore` missing, not
a boolean or false, or `cursor` missing or not a number) sends the leading
object items of the page up to the count still missing and closes the
stream. -/
theorem pageStep_last (arch : Float64 → Int) (api : Dispatcher) (id : String) (count : Int)
    (options : GoMap GoVal) (n : Nat) (currentCount currentCursor : Int) (sent : List JObj)
    (resp : JObj)
    (hlen : (sent.length : Int) = currentCount) (hle : currentCount ≤ count)
    (hresp : api n (videosCall id currentCursor options) = Res.ok (some resp))
    (hlast : asBool (mapGet resp "hasMore") ≠ some true ∨
      asFloat (mapGet resp "cursor") = none) :
    pageStep arch api id count options n currentCount currentCursor sent =
      PageEnd.stop StreamStatus.closed
        (sent ++ (objectItems (pageItems resp)).take (count - currentCount).toNat) := by
  unfold pageStep pageItems
  rw [hresp]
  simp only
  cases harr : asArray (mapGet resp "itemList") with
  | none => simp [objectItems]
  | some itemList =>
    simp only
    by_cases hz : itemList.length = 0
    · rw [if_pos hz]
      have : itemList = [] := List.length_eq_zero.mp hz
      simp [this, objectItems]
    · rw [if_neg hz]
      have hs := sendItems_spec count itemList currentCount sent hlen hle
      rcases hsi : sendItems count count itemList currentCount sent with ⟨e, c', sent'⟩
      rw [hsi] at hs
      simp only at hs
      cases e with
      | blocked => exact absurd rfl hs.1
      | returned =>
        simp only
        rw [hs.2.1]
      | finished =>
        simp only
        rw [hs.2.1]
        cases hmore : asBool (mapGet resp "hasMore") with
        | none => rfl
        | some b =>
          cases b with
          | false => rfl
          | true =>
            simp only
            rcases hlast with h | h
            · exact absurd hmore h
            · rw [h]

/-- A run that is still paging when its fuel is spent has made one request
per unit of fuel, and a longer run continues it from a point where items are
still missing. -/
theorem videosLoop_running (arch : Float64 → Int) (api : Dispatcher) (id : String)
    (count : Int) (options : GoMap GoVal) :
    ∀ (f n : Nat) (currentCount currentCursor : Int) (sent : List JObj) (calls : List Call),
      (sent.length : Int) = currentCount → currentCount ≤ count →
      (videosLoop arch api id count options f n currentCount currentCursor sent
        calls).status = StreamStatus.running →
      ∃ currentCount' currentCursor', currentCount' < count ∧
        (((videosLoop arch api id count options f n currentCount currentCursor sent
          calls).sent.length : Nat) : Int) = currentCount' ∧
        (videosLoop arch api id count options f n currentCount currentCursor sent
          calls).calls.length = calls.length + f ∧
        ∀ g, videosLoop arch api id count options (f + g) n currentCount currentCursor sent
            calls =
          videosLoop arch api id count options g (n + f) currentCount' currentCursor'
            (videosLoop arch api id count options f n currentCount currentCursor sent
              calls).sent
            (videosLoop arch api id count options f n currentCount currentCursor sent
              calls).calls := by
  intro f
  induction f with
  | zero =>
    intro n currentCount currentCursor sent calls hlen hle hstat
    by_cases hlt : currentCount < count
    · refine ⟨currentCount, currentCursor, hlt, ?_, ?_, ?_⟩
      · simp [videosLoop, hlt, hlen]
      · simp [videosLoop, hlt]
      · intro g
        simp [videosLoop, hlt]
    · simp [videosLoop, hlt] at hstat
  | succ f ih =>
    intro n currentCount currentCursor sent calls hlen hle hstat
    by_cases hlt : currentCount < count
    · rcases pageStep_cases arch api id count options n currentCount currentCursor sent
        hlen hle with ⟨status, sent', hps, hst⟩ | ⟨c', resp, cursor, itemList, hps, _, _, _, _,
          _, hlen', hle'⟩
      · rw [videosLoop_succ, if_pos hlt, hps] at hstat
        simp only at hstat
        rcases hst with h | ⟨h, _⟩ <;> rw [h] at hstat <;> exact absurd hstat (by decide)
      · have heq : videosLoop arch api id count options (f + 1) n currentCount currentCursor
            sent calls =
            videosLoop arch api id count options f (n + 1) c' (floatToInt arch cursor)
              (sent ++ (objectItems itemList).take (count - currentCount).toNat)
              (calls ++ [videosCall id currentCursor options]) := by
          rw [videosLoop_succ, if_pos hlt, hps]
        rw [heq] at hstat ⊢
        obtain ⟨c'', cur'', hlt'', hsent'', hcalls'', hcont⟩ :=
          ih (n + 1) c' (floatToInt arch cursor) _ _ hlen' hle' hstat
        refine ⟨c'', cur'', hlt'', hsent'', ?_, ?_⟩
        · rw [hcalls'']
          simp
          omega
        · intro g
          have hfg : f + 1 + g = (f + g) + 1 := by omega
          have hn : n + (f + 1) = n + 1 + f := by omega
          rw [hfg, videosLoop_succ, if_pos hlt, hps, hn]
          exact hcont g
    · rw [videosLoop_succ, if_neg hlt] at hstat
      simp at hstat

/-- The run of `Videos` is the paging loop started at the caller's cursor,
unless the reference is no dispatcher or the count is negative. -/
theorem Videos_ok (arch : Float64 → Int) (s : Sound) (api : Dispatcher) (count cursor : Int)
    (options : GoMap GoVal) (fuel : Nat) (stream : Stream)
    (hapi : s.API = some api)
    (hrun : Videos arch s count cursor options fuel = Res.ok stream) :
    0 ≤ count ∧
    ∀ g, Videos arch s count cursor options g =
      Res.ok (videosLoop arch api s.ID count options g 0 0 cursor [] []) := by
  unfold Videos at hrun
  rw [hapi] at hrun
  simp only at hrun
  by_cases hneg : count < 0
  · rw [if_pos hneg] at hrun
    cases hrun
  · refine ⟨by omega, ?_⟩
    intro g
    unfold Videos
    rw [hapi]
    simp only
    rw [if_neg hneg]

/-- C15: if after `k` page requests the goroutine of `Videos` is still paging
and the next request fails (the dispatch returns an error, a decode error
among them, or a nil payload), then however much longer it runs the stream
holds exactly the values sent from the first `k` pages and is closed, one
more request was made and no further one, and `Videos` itself has returned a
nil error. -/
theorem Videos_failed_page_closes_stream (arch : Float64 → Int) (s : Sound)
    (api : Dispatcher) (count cursor : Int) (options : GoMap GoVal) (k fuel : Nat)
    (st : Stream)
    (hapi : s.API = some api)
    (hrun : Videos arch s count cursor options k = Res.ok st)
    (hstat : st.status = StreamStatus.running)
    (hfail : ∀ call, (∃ e, api k call = Res.err e) ∨ api k call = Res.ok none) :
    st.calls.length = k ∧
    ∃ currentCursor, Videos arch s count cursor options (k + (fuel + 1)) =
      Res.ok { sent := st.sent, calls := st.calls ++ [videosCall s.ID currentCursor options],
               status := StreamStatus.closed } := by
  obtain ⟨hcount, hV⟩ := Videos_ok arch s api count cursor options k st hapi hrun
  have hst : st = videosLoop arch api s.ID count options k 0 0 cursor [] [] := by
    rw [hV k] at hrun
    injection hrun with h
    exact h.symm
  rw [hst] at hstat
  obtain ⟨c', cur', hlt, _, hcalls, hcont⟩ :=
    videosLoop_running arch api s.ID count options k 0 0 cursor [] [] rfl hcount hstat
  refine ⟨by rw [hst, hcalls]; simp, cur', ?_⟩
  rw [hV, hcont (fuel + 1), ← hst, videosLoop_succ, if_pos hlt]
  have hps : pageStep arch api s.ID count options (0 + k) c' cur' st.sent =
      PageEnd.stop StreamStatus.closed st.sent := by
    unfold pageStep
    rcases hfail (videosCall s.ID cur' options) with ⟨e, he⟩ | hnil
    · rw [Nat.zero_add, he]
    · rw [Nat.zero_add, hnil]
  rw [hps]

/-- C15 at count 5 against a dispatcher whose first page holds three videos
and whose second request times out. -/
theorem Videos_failed_page_closes_stream_witness :
    sampleFailingSound.API =
      some (fun n _ => if n = 0 then Res.ok (some samplePage) else Res.err "timeout") ∧
    Videos (fun _ => 0) sampleFailingSound 5 0 [] 1 = Res.ok sampleStreamAfterOnePage ∧
    sampleStreamAfterOnePage.status = StreamStatus.running ∧
    (sampleStreamAfterOnePage.calls.length = 1 ∧
     ∃ currentCursor, Videos (fun _ => 0) sampleFailingSound 5 0 [] (1 + (3 + 1)) =
       Res.ok { sent := sampleStreamAfterOnePage.sent,
                calls := sampleStreamAfterOnePage.calls ++
                  [videosCall sampleFailingSound.ID currentCursor []],
                status := StreamStatus.closed }) :=
  ⟨rfl, rfl, rfl,
    Videos_failed_page_closes_stream (fun _ => 0) sampleFailingSound
      (fun n _ => if n = 0 then Res.ok (some samplePage) else Res.err "timeout")
      5 0 [] 1 3 sampleStreamAfterOnePage rfl rfl rfl (fun _ => Or.inl ⟨"timeout", rfl⟩)⟩

/-- C16: if after `k` page requests the goroutine of `Videos` is still paging
and the next page has `hasMore` missing, not a boolean or false, or `cursor`
missing or not a number, then however much longer it runs the stream holds
the values sent before followed by the leading object items of that page up
to the count still missing, and is closed after that one request. -/
theorem Videos_last_page_closes_stream (arch : Float64 → Int) (s : Sound)
    (api : Dispatcher) (count cursor : Int) (options : GoMap GoVal) (k fuel : Nat)
    (st : Stream) (resp : JObj)
    (hapi : s.API = some api)
    (hrun : Videos arch s count cursor options k = Res.ok st)
    (hstat : st.status = StreamStatus.running)
    (hresp : ∀ call, api k call = Res.ok (some resp))
    (hlast : asBool (mapGet resp "hasMore") ≠ some true ∨
      asFloat (mapGet resp "cursor") = none) :
    st.calls.length = k ∧
    ∃ currentCursor, Videos arch s count cursor options (k + (fuel + 1)) =
      Res.ok { sent := st.sent ++
                 (objectItems (pageItems resp)).take (count - (st.sent.length : Int)).toNat,
               calls := st.calls ++ [videosCall s.ID currentCursor options],
               status := StreamStatus.closed } := by
  obtain ⟨hcount, hV⟩ := Videos_ok arch s api count cursor options k st hapi hrun
  have hst : st = videosLoop arch api s.ID count options k 0 0 cursor [] [] := by
    rw [hV k] at hrun
    injection hrun with h
    exact h.symm
  rw [hst] at hstat
  obtain ⟨c', cur', hlt, hsent, hcalls, hcont⟩ :=
    videosLoop_running arch api s.ID count options k 0 0 cursor [] [] rfl hcount hstat
  rw [← hst] at hsent
  refine ⟨by rw [hst, hcalls]; simp, cur', ?_⟩
  rw [hV, hcont (fuel + 1), ← hst, videosLoop_succ, if_pos hlt]
  rw [pageStep_last arch api s.ID count options (0 + k) c' cur' st.sent resp hsent
    (by omega) (by rw [Nat.zero_add]; exact hresp _) hlast, hsent]

/-- C16 at count 5 against a first page of three videos and a last page of
three more with `hasMore` false: two of the last page are sent. -/
theorem Videos_last_page_closes_stream_witness :
    sampleTwoPageSound.API = some (fun n _ =>
      if n = 0 then Res.ok (some samplePage) else Res.ok (some sampleLastPage)) ∧
    Videos (fun _ => 0) sampleTwoPageSound 5 0 [] 1 = Res.ok sampleStreamAfterOnePage ∧
    sampleStreamAfterOnePage.status = StreamStatus.running ∧
    (asBool (mapGet sampleLastPage "hasMore") ≠ some true ∨
      asFloat (mapGet sampleLastPage "cursor") = none) ∧
    (sampleStreamAfterOnePage.calls.length = 1 ∧
     ∃ currentCursor, Videos (fun _ => 0) sampleTwoPageSound 5 0 [] (1 + (3 + 1)) =
       Res.ok { sent := sampleStreamAfterOnePage.sent ++
                  (objectItems (pageItems sampleLastPage)).take
                    (5 - (sampleStreamAfterOnePage.sent.length : Int)).toNat,
                calls := sampleStreamAfterOnePage.calls ++
                  [videosCall sampleTwoPageSound.ID currentCursor []],
                status := StreamStatus.closed }) :=
  ⟨rfl, rfl, rfl, Or.inr rfl,
    Videos_last_page_closes_stream (fun _ => 0) sampleTwoPageSound
      (fun n _ => if n = 0 then Res.ok (some samplePage) else Res.ok (some sampleLastPage))
      5 0 [] 1 3 sampleStreamAfterOnePage sampleLastPage rfl rfl rfl (fun _ => rfl)
      (Or.inr rfl)⟩

/-! ## Finiteness of the stream -/

theorem videosLoop_junk_pages_run_on :
    ∀ (fuel n : Nat) (calls : List Call),
      (videosLoop (fun _ => 0) (fun _ _ => Res.ok (some sampleJunkPage)) sampleJunkSound.ID 1 []
        fuel n 0 0 [] calls).status = StreamStatus.running ∧
      (videosLoop (fun _ => 0) (fun _ _ => Res.ok (some sampleJunkPage)) sampleJunkSound.ID 1 []
        fuel n 0 0 [] calls).calls.length = calls.length + fuel := by
  intro fuel
  induction fuel with
  | zero =>
    intro n calls
    simp [videosLoop]
  | succ fuel ih =>
    intro n calls
    have hps : pageStep (fun _ => 0) (fun _ _ => Res.ok (some sampleJunkPage))
        sampleJunkSound.ID 1 [] n 0 0 [] = PageEnd.next 0 0 [] := rfl
    rw [videosLoop_succ, if_pos (by decide), hps]
    simp only
    obtain ⟨h1, h2⟩ := ih (n + 1) (calls ++ [videosCall sampleJunkSound.ID 0 []])
    refine ⟨h1, ?_⟩
    rw [h2]
    simp
    omega

/-- C13 (as stated, refuted): against a server whose every page holds one
item that is no object and announces a further page, the goroutine of
`Videos` with count 1 never stops: whatever number of page requests it is
given, it has made them all and is still paging. And with a negative count
`Videos` panics when it makes the channel, before any stream exists; and
when the dispatcher panics (session index -1 on a pool of two) the goroutine
dies after its first request without closing the stream. -/
theorem Videos_pages_forever_on_junk_pages :
    (¬ ∃ fuel stream, Videos (fun _ => 0) sampleJunkSound 1 0 [] fuel = Res.ok stream ∧
      (stream.status ≠ StreamStatus.running ∨ stream.calls.length ≠ fuel)) ∧
    Videos (fun _ => 0) sampleJunkSound (-1) 0 [] 0 = Res.panic ∧
    (match Videos (fun _ => 0) samplePoolSound 1 0 [("session_index", GoVal.int (-1))] 3 with
      | Res.ok stream => (stream.status, stream.calls.length)
      | _ => (StreamStatus.closed, 0)) = (StreamStatus.crashed, 1) := by
  refine ⟨?_, rfl, by decide⟩
  rintro ⟨fuel, stream, hrun, hbad⟩
  have hV : Videos (fun _ => 0) sampleJunkSound 1 0 [] fuel =
      Res.ok (videosLoop (fun _ => 0) (fun _ _ => Res.ok (some sampleJunkPage))
        sampleJunkSound.ID 1 [] fuel 0 0 0 [] []) := rfl
  rw [hV] at hrun
  injection hrun with hst
  obtain ⟨h1, h2⟩ := videosLoop_junk_pages_run_on fuel 0 []
  rw [hst] at h1 h2
  rcases hbad with h | h
  · exact h h1
  · exact h (by simpa using h2)

theorem junkPage_of_next (api : Dispatcher) (n : Nat) (call : Call) (resp : JObj)
    (itemList : List JSON) (cursor : Float64)
    (hresp : api n call = Res.ok (some resp))
    (harr : asArray (mapGet resp "itemList") = some itemList) (hne : itemList ≠ [])
    (hmore : asBool (mapGet resp "hasMore") = some true)
    (hcur : asFloat (mapGet resp "cursor") = some cursor)
    (hobj : objectItems itemList = []) :
    junkPage (api n call) = true := by
  unfold junkPage
  rw [hresp]
  simp only [harr, hmore, hcur, hobj]
  cases itemList with
  | nil => exact absurd rfl hne
  | cons item rest => rfl

/-- A round that stops with the stream closed ends every run that has fuel
for it. -/
theorem videosLoop_ends_of_stop (arch : Float64 → Int) (api : Dispatcher) (id : String)
    (count : Int) (options : GoMap GoVal) (n : Nat) (currentCount currentCursor : Int)
    (sent sent' : List JObj) (calls : List Call)
    (hlt : currentCount < count)
    (hps : pageStep arch api id count options n currentCount currentCursor sent =
      PageEnd.stop StreamStatus.closed sent') :
    ∀ fuel, 1 ≤ fuel →
      (videosLoop arch api id count options fuel n currentCount currentCursor sent
        calls).status = StreamStatus.closed ∧
      (videosLoop arch api id count options fuel n currentCount currentCursor sent
        calls).calls.length ≤ calls.length + 1 := by
  intro fuel hfuel
  obtain ⟨f, rfl⟩ : ∃ f, fuel = f + 1 := ⟨fuel - 1, by omega⟩
  rw [videosLoop_succ, if_pos hlt, hps]
  simp

/-- A round that goes on to a state from which every long enough run ends
closed: then so does every run from before the round, one request more. -/
theorem videosLoop_ends_of_next (arch : Float64 → Int) (api : Dispatcher) (id : String)
    (count : Int) (options : GoMap GoVal) (n : Nat) (currentCount currentCursor : Int)
    (sent sent' : List JObj) (calls : List Call) (c' cur' : Int) (N : Nat)
    (hlt : currentCount < count)
    (hps : pageStep arch api id count options n currentCount currentCursor sent =
      PageEnd.next c' cur' sent')
    (hnext : ∀ fuel, N ≤ fuel →
      (videosLoop arch api id count options fuel (n + 1) c' cur' sent'
        (calls ++ [videosCall id currentCursor options])).status = StreamStatus.closed ∧
      (videosLoop arch api id count options fuel (n + 1) c' cur' sent'
        (calls ++ [videosCall id currentCursor options])).calls.length ≤
          (calls ++ [videosCall id currentCursor options]).length + N) :
    ∀ fuel, N + 1 ≤ fuel →
      (videosLoop arch api id count options fuel n currentCount currentCursor sent
        calls).status = StreamStatus.closed ∧
      (videosLoop arch api id count options fuel n currentCount currentCursor sent
        calls).calls.length ≤ calls.length + (N + 1) := by
  intro fuel hfuel
  obtain ⟨f, rfl⟩ : ∃ f, fuel = f + 1 := ⟨fuel - 1, by omega⟩
  rw [videosLoop_succ, if_pos hlt, hps]
  simp only
  obtain ⟨h1, h2⟩ := hnext f (by omega)
  refine ⟨h1, le_trans h2 ?_⟩
  simp
  omega

/-- With `r` items at most still missing, and pages that keep the loop going
without an object item never following one another without end, every long
enough run of the paging loop ends with the stream closed. -/
theorem videosLoop_ends (arch : Float64 → Int) (api : Dispatcher) (id : String)
    (count : Int) (options : GoMap GoVal)
    (hnopanic : ∀ n call, api n call ≠ Res.panic)
    (hjunk : ∀ n, ∃ m, n ≤ m ∧ ∀ call, junkPage (api m call) = false) :
    ∀ (r n : Nat) (currentCount currentCursor : Int) (sent : List JObj) (calls : List Call),
      (sent.length : Int) = currentCount → currentCount ≤ count →
      (count - currentCount).toNat ≤ r →
      ∃ N, ∀ fuel, N ≤ fuel →
        (videosLoop arch api id count options fuel n currentCount currentCursor sent
          calls).status = StreamStatus.closed ∧
        (videosLoop arch api id count options fuel n currentCount currentCursor sent
          calls).calls.length ≤ calls.length + N := by
  have hdone : ∀ (n : Nat) (currentCount currentCursor : Int) (sent : List JObj)
      (calls : List Call), ¬ currentCount < count →
      ∃ N, ∀ fuel, N ≤ fuel →
        (videosLoop arch api id count options fuel n currentCount currentCursor sent
          calls).status = StreamStatus.closed ∧
        (videosLoop arch api id count options fuel n currentCount currentCursor sent
          calls).calls.length ≤ calls.length + N := by
    intro n currentCount currentCursor sent calls hge
    refine ⟨0, fun fuel _ => ?_⟩
    rw [videosLoop_count_reached arch api id count options fuel n currentCount currentCursor
      sent calls hge]
    simp
  intro r
  induction r with
  | zero =>
    intro n currentCount currentCursor sent calls _ _ hr
    exact hdone n currentCount currentCursor sent calls (by omega)
  | succ r ihr =>
    have hinner : ∀ (d n : Nat) (currentCount currentCursor : Int) (sent : List JObj)
        (calls : List Call),
        (sent.length : Int) = currentCount → currentCount ≤ count →
        (count - currentCount).toNat ≤ r + 1 →
        (∀ call, junkPage (api (n + d) call) = false) →
        ∃ N, ∀ fuel, N ≤ fuel →
          (videosLoop arch api id count options fuel n currentCount currentCursor sent
            calls).status = StreamStatus.closed ∧
          (videosLoop arch api id count options fuel n currentCount currentCursor sent
            calls).calls.length ≤ calls.length + N := by
      intro d
      induction d with
      | zero =>
        intro n currentCount currentCursor sent calls hlen hle hr hgood
        by_cases hlt : currentCount < count
        · rcases pageStep_cases arch api id count options n currentCount currentCursor sent
            hlen hle with ⟨status, sent', hps, hst⟩ | ⟨c', resp, cursor, itemList, hps, hresp,
              harr, hne, hmore, hcur, hlen', hle'⟩
          · rcases hst with h | ⟨_, h⟩
            · rw [h] at hps
              exact ⟨1, videosLoop_ends_of_stop arch api id count options n currentCount
                currentCursor sent sent' calls hlt hps⟩
            · exact absurd h (hnopanic _ _)
          · by_cases hobj : objectItems itemList = []
            · have hj := junkPage_of_next api n _ resp itemList cursor hresp harr hne hmore
                hcur hobj
              have hg := hgood (videosCall id currentCursor options)
              rw [Nat.add_zero, hj] at hg
              exact absurd hg (by decide)
            · have hpos : 0 < (objectItems itemList).length := List.length_pos.mpr hobj
              have hstep : currentCount + 1 ≤ c' := by
                rw [← hlen', ← hlen]
                simp only [List.length_append, List.length_take]
                have : 1 ≤ min (count - currentCount).toNat (objectItems itemList).length := by
                  apply Nat.le_min.mpr
                  constructor <;> omega
                push_cast
                omega
              obtain ⟨N, hN⟩ := ihr (n + 1) c' (floatToInt arch cursor) _
                (calls ++ [videosCall id currentCursor options]) hlen' hle' (by omega)
              exact ⟨N + 1, videosLoop_ends_of_next arch api id count options n currentCount
                currentCursor sent _ calls c' _ N hlt hps hN⟩
        · exact hdone n currentCount currentCursor sent calls hlt
      | succ d ihd =>
        intro n currentCount currentCursor sent calls hlen hle hr hgood
        by_cases hlt : currentCount < count
        · rcases pageStep_cases arch api id count options n currentCount currentCursor sent
            hlen hle with ⟨status, sent', hps, hst⟩ | ⟨c', resp, cursor, itemList, hps, hresp,
              harr, hne, hmore, hcur, hlen', hle'⟩
          · rcases hst with h | ⟨_, h⟩
            · rw [h] at hps
              exact ⟨1, videosLoop_ends_of_stop arch api id count options n currentCount
                currentCursor sent sent' calls hlt hps⟩
            · exact absurd h (hnopanic _ _)
          · by_cases hobj : objectItems itemList = []
            · have hsame : c' = currentCount := by
                rw [← hlen', ← hlen, hobj]
                simp
              have hgood' : ∀ call, junkPage (api (n + 1 + d) call) = false := by
                intro call
                have hnd : n + 1 + d = n + (d + 1) := by omega
                rw [hnd]
                exact hgood call
              obtain ⟨N, hN⟩ := ihd (n + 1) c' (floatToInt arch cursor) _
                (calls ++ [videosCall id currentCursor options]) hlen' hle'
                (by rw [hsame]; exact hr) hgood'
              exact ⟨N + 1, videosLoop_ends_of_next arch api id count options n currentCount
                currentCursor sent _ calls c' _ N hlt hps hN⟩
            · have hpos : 0 < (objectItems itemList).length := List.length_pos.mpr hobj
              have hstep : currentCount + 1 ≤ c' := by
                rw [← hlen', ← hlen]
                simp only [List.length_append, List.length_take]
                have : 1 ≤ min (count - currentCount).toNat (objectItems itemList).length := by
                  apply Nat.le_min.mpr
                  constructor <;> omega
                push_cast
                omega
              obtain ⟨N, hN⟩ := ihr (n + 1) c' (floatToInt arch cursor) _
                (calls ++ [videosCall id currentCursor options]) hlen' hle' (by omega)
              exact ⟨N + 1, videosLoop_ends_of_next arch api id count options n currentCount
                currentCursor sent _ calls c' _ N hlt hps hN⟩
        · exact hdone n currentCount currentCursor sent calls hlt
    intro n currentCount currentCursor sent calls hlen hle hr
    obtain ⟨m, hm, hgood⟩ := hjunk n
    have hnm : n + (m - n) = m := by omega
    exact hinner (m - n) n currentCount currentCursor sent calls hlen hle hr
      (by rw [hnm]; exact hgood)

/-- C13 (amended): for every call of `Videos` that returns a stream, against
a dispatcher that does not panic and a server whose pages that keep the loop
going without an object item (non-empty item list with no object in it,
`hasMore` true, numeric cursor) do not follow one another without end, the
goroutine makes only finitely many page requests and then closes the
stream: there is a number N of requests such that every run allowed N
requests or more ends closed after at most N of them. -/
theorem Videos_finite_unless_junk_pages_forever (arch : Float64 → Int) (s : Sound)
    (api : Dispatcher) (count cursor : Int) (options : GoMap GoVal) (fuel₀ : Nat)
    (st₀ : Stream)
    (hapi : s.API = some api)
    (hrun : Videos arch s count cursor options fuel₀ = Res.ok st₀)
    (hnopanic : ∀ n call, api n call ≠ Res.panic)
    (hjunk : ∀ n, ∃ m, n ≤ m ∧ ∀ call, junkPage (api m call) = false) :
    ∃ N, ∀ fuel, N ≤ fuel →
      ∃ stream, Videos arch s count cursor options fuel = Res.ok stream ∧
        stream.status = StreamStatus.closed ∧ stream.calls.length ≤ N := by
  obtain ⟨hcount, hV⟩ := Videos_ok arch s api count cursor options fuel₀ st₀ hapi hrun
  obtain ⟨N, hN⟩ := videosLoop_ends arch api s.ID count options hnopanic hjunk count.toNat 0 0
    cursor [] [] rfl hcount (by simp)
  refine ⟨N, fun fuel hfuel => ⟨_, hV fuel, (hN fuel hfuel).1, ?_⟩⟩
  simpa using (hN fuel hfuel).2

/-- C13 (amended) at count 1 against a server whose first page holds no
object item and announces a further page, and whose later pages hold three
videos each: the stream is closed after two requests. -/
theorem Videos_finite_unless_junk_pages_forever_witness :
    sampleJunkThenGoodSound.API = some (fun n _ =>
      if n = 0 then Res.ok (some sampleJunkPage) else Res.ok (some samplePage)) ∧
    Videos (fun _ => 0) sampleJunkThenGoodSound 1 0 [] 0 =
      Res.ok { sent := [], calls := [], status := StreamStatus.running } ∧
    junkPage (Res.ok (some sampleJunkPage)) = true ∧
    (match Videos (fun _ => 0) sampleJunkThenGoodSound 1 0 [] 5 with
      | Res.ok stream => (stream.status, stream.calls.length, stream.sent.length)
      | _ => (StreamStatus.running, 0, 0)) = (StreamStatus.closed, 2, 1) ∧
    ∃ N, ∀ fuel, N ≤ fuel →
      ∃ stream, Videos (fun _ => 0) sampleJunkThenGoodSound 1 0 [] fuel = Res.ok stream ∧
        stream.status = StreamStatus.closed ∧ stream.calls.length ≤ N :=
  ⟨rfl, rfl, by decide, by decide,
    Videos_finite_unless_junk_pages_forever (fun _ => 0) sampleJunkThenGoodSound
      (fun n _ => if n = 0 then Res.ok (some sampleJunkPage) else Res.ok (some samplePage))
      1 0 [] 0 { sent := [], calls := [], status := StreamStatus.running } rfl rfl
      (fun n _ h => by by_cases hn : n = 0 <;> simp [hn] at h)
      (fun n => ⟨n + 1, by omega, fun _ => rfl⟩)⟩

/-! ## Page size and cursor of the page requests -/

theorem mapGet_optToken (options : GoMap GoVal) (params : StrMap) (k : String)
    (hk : "msToken" ≠ k) :
    mapGet (optToken options params) k = mapGet params k := by
  unfold optToken
  split
  · exact mapGet_mapSet_ne _ _ _ _ hk
  · rfl

theorem videosCall_params (id : String) (currentCursor : Int) (options : GoMap GoVal) :
    mapGet (videosCall id currentCursor options).params "count" = some "30" ∧
    mapGet (videosCall id currentCursor options).params "cursor" =
      some (fmtD currentCursor) := by
  unfold videosCall
  constructor
  · rw [mapGet_optToken _ _ _ (by decide)]
    simp [mapGet]
    decide
  · rw [mapGet_optToken _ _ _ (by decide)]
    simp [mapGet]

theorem cursorSeq_succ (arch : Float64 → Int) (api : Dispatcher) (id : String)
    (options : GoMap GoVal) (cursor : Int) (i : Nat) (resp : JObj) (c : Float64)
    (hresp : api i (videosCall id (cursorSeq arch api id options cursor i) options) =
      Res.ok (some resp))
    (hcur : asFloat (mapGet resp "cursor") = some c) :
    cursorSeq arch api id options cursor (i + 1) = floatToInt arch c := by
  simp only [cursorSeq, nextCursor, hresp, hcur]

theorem videosLoop_calls (arch : Float64 → Int) (api : Dispatcher) (id : String)
    (count : Int) (options : GoMap GoVal) (cursor : Int) :
    ∀ (fuel n : Nat) (currentCount currentCursor : Int) (sent : List JObj) (calls : List Call),
      (sent.length : Int) = currentCount → currentCount ≤ count →
      calls = (List.range n).map
        (fun i => videosCall id (cursorSeq arch api id options cursor i) options) →
      currentCursor = cursorSeq arch api id options cursor n →
      (∀ i, i < n → ∃ resp c,
        api i (videosCall id (cursorSeq arch api id options cursor i) options) =
          Res.ok (some resp) ∧
        asFloat (mapGet resp "cursor") = some c) →
      (videosLoop arch api id count options fuel n currentCount currentCursor sent
          calls).calls =
        (List.range (videosLoop arch api id count options fuel n currentCount currentCursor
            sent calls).calls.length).map
          (fun i => videosCall id (cursorSeq arch api id options cursor i) options) ∧
      ∀ i, i + 1 < (videosLoop arch api id count options fuel n currentCount currentCursor
          sent calls).calls.length →
        ∃ resp c,
          api i (videosCall id (cursorSeq arch api id options cursor i) options) =
            Res.ok (some resp) ∧
          asFloat (mapGet resp "cursor") = some c := by
  intro fuel
  induction fuel with
  | zero =>
    intro n currentCount currentCursor sent calls _ _ hcalls _ hpages
    have hc : (videosLoop arch api id count options 0 n currentCount currentCursor sent
        calls).calls = calls := by
      unfold videosLoop
      split <;> rfl
    have hn : calls.length = n := by rw [hcalls]; simp
    rw [hc, hn]
    exact ⟨hcalls, fun i hi => hpages i (by omega)⟩
  | succ fuel ih =>
    intro n currentCount currentCursor sent calls hlen hle hcalls hcur hpages
    have hn : calls.length = n := by rw [hcalls]; simp
    have happ : calls ++ [videosCall id currentCursor options] =
        (List.range (n + 1)).map
          (fun i => videosCall id (cursorSeq arch api id options cursor i) options) := by
      rw [List.range_succ, List.map_append, ← hcalls, hcur]
      rfl
    by_cases hlt : currentCount < count
    · rw [videosLoop_succ, if_pos hlt]
      rcases pageStep_cases arch api id count options n currentCount currentCursor sent
        hlen hle with ⟨status, sent', hps, _⟩ | ⟨c', resp, c, itemList, hps, hresp, _, _, _,
          hc, hlen', hle'⟩
      · rw [hps]
        simp only
        have hl : (calls ++ [videosCall id currentCursor options]).length = n + 1 := by
          simp [hn]
        rw [hl]
        exact ⟨happ, fun i hi => hpages i (by omega)⟩
      · rw [hps]
        simp only
        rw [hcur] at hresp
        refine ih (n + 1) c' (floatToInt arch c) _ _ hlen' hle' happ
          (cursorSeq_succ arch api id options cursor n resp c hresp hc).symm ?_
        intro i hi
        by_cases hin : i < n
        · exact hpages i hin
        · have : i = n := by omega
          subst this
          exact ⟨resp, c, hresp, hc⟩
    · rw [videosLoop_succ, if_neg hlt]
      simp only
      rw [hn]
      exact ⟨hcalls, fun i hi => hpages i (by omega)⟩

/-- C17 (as stated, refuted): after a page whose cursor is 2^63, the next
page request does not carry that number truncated to an integer,
9223372036854775808: on amd64 it carries -9223372036854775808, and on no
platform can the `int` conversion yield the truncation, which no 64-bit
integer holds. -/
theorem Videos_cursor_beyond_int_range_not_truncated :
    (match Videos sampleArch sampleHugeCursorSound 2 0 [] 2 with
      | Res.ok stream => stream.calls.map (fun call => mapGet call.params "cursor")
      | _ => []) = [some "0", some "-9223372036854775808"] ∧
    fmtD (Float64.trunc { mant := 1, exp := 63 }) = "9223372036854775808" ∧
    ¬ ∃ arch, floatToInt arch { mant := 1, exp := 63 } =
      Float64.trunc { mant := 1, exp := 63 } := by
  refine ⟨by decide, by decide, ?_⟩
  rintro ⟨arch, h⟩
  have htr : Float64.trunc { mant := 1, exp := 63 } = 2 ^ 63 := by decide
  rw [htr] at h
  unfold floatToInt at h
  rw [htr, if_neg (by decide)] at h
  have hlt : Int.emod (arch { mant := 1, exp := 63 } + 2 ^ 63) (2 ^ 64) < 2 ^ 64 :=
    Int.emod_lt_of_pos _ (by decide)
  generalize Int.emod (arch { mant := 1, exp := 63 } + 2 ^ 63) (2 ^ 64) = x at h hlt
  norm_num at h hlt
  omega

/-- C17 (amended): every page request of `Videos` carries `count` = "30" and
as `cursor` the decimal form of the loop's cursor; the requests of a run are,
in order, those for the cursors `cursorSeq 0, cursorSeq 1, ...`, where the
first is the caller's start cursor and each later one is the `int`
conversion of the cursor number of the page returned just before, which is
its truncation toward zero whenever that fits a 64-bit integer. -/
theorem Videos_requests_carry_page_size_and_cursor (arch : Float64 → Int) (s : Sound)
    (api : Dispatcher) (count cursor : Int) (options : GoMap GoVal) (fuel : Nat)
    (stream : Stream)
    (hapi : s.API = some api)
    (hrun : Videos arch s count cursor options fuel = Res.ok stream) :
    (∀ call ∈ stream.calls,
      mapGet call.params "count" = some "30" ∧
      call.url = "https://www.tiktok.com/api/music/item_list/") ∧
    stream.calls = (List.range stream.calls.length).map
      (fun i => videosCall s.ID (cursorSeq arch api s.ID options cursor i) options) ∧
    (∀ i, mapGet (videosCall s.ID (cursorSeq arch api s.ID options cursor i) options).params
      "cursor" = some (fmtD (cursorSeq arch api s.ID options cursor i))) ∧
    cursorSeq arch api s.ID options cursor 0 = cursor ∧
    (∀ i, i + 1 < stream.calls.length →
      ∃ resp c,
        api i (videosCall s.ID (cursorSeq arch api s.ID options cursor i) options) =
          Res.ok (some resp) ∧
        asFloat (mapGet resp "cursor") = some c ∧
        cursorSeq arch api s.ID options cursor (i + 1) = floatToInt arch c ∧
        (-(2 ^ 63) ≤ c.trunc ∧ c.trunc < 2 ^ 63 →
          cursorSeq arch api s.ID options cursor (i + 1) = c.trunc)) := by
  obtain ⟨hcount, hV⟩ := Videos_ok arch s api count cursor options fuel stream hapi hrun
  have hst : stream = videosLoop arch api s.ID count options fuel 0 0 cursor [] [] := by
    rw [hV fuel] at hrun
    injection hrun with h
    exact h.symm
  obtain ⟨hcalls, hpages⟩ := videosLoop_calls arch api s.ID count options cursor fuel 0 0
    cursor [] [] rfl hcount rfl rfl (fun i hi => absurd hi (by omega))
  rw [← hst] at hcalls hpages
  refine ⟨?_, hcalls, fun i => (videosCall_params _ _ _).2, rfl, ?_⟩
  · intro call hcall
    rw [hcalls] at hcall
    obtain ⟨i, _, hi⟩ := List.mem_map.mp hcall
    rw [← hi]
    exact ⟨(videosCall_params _ _ _).1, rfl⟩
  · intro i hi
    obtain ⟨resp, c, hresp, hc⟩ := hpages i hi
    have hnext := cursorSeq_succ arch api s.ID options cursor i resp c hresp hc
    refine ⟨resp, c, hresp, hc, hnext, ?_⟩
    intro hrange
    rw [hnext]
    unfold floatToInt
    rw [if_pos hrange]

/-- C17 (amended) at count 5 against pages of three videos with cursor 30:
two requests, the first at the caller's cursor 7, the second at 30. -/
theorem Videos_requests_carry_page_size_and_cursor_witness :
    samplePagedSound.API = some (fun _ _ => Res.ok (some samplePage)) ∧
    Videos (fun _ => 0) samplePagedSound 5 7 [] 4 = Res.ok samplePagedRun ∧
    samplePagedRun.calls.map
        (fun call => (mapGet call.params "count", mapGet call.params "cursor")) =
      [(some "30", some "7"), (some "30", some "30")] ∧
    samplePagedRun.calls = (List.range samplePagedRun.calls.length).map
      (fun i => videosCall samplePagedSound.ID
        (cursorSeq (fun _ => 0) (fun _ _ => Res.ok (some samplePage)) samplePagedSound.ID [] 7 i)
        []) ∧
    cursorSeq (fun _ => 0) (fun _ _ => Res.ok (some samplePage)) samplePagedSound.ID [] 7 0
      = 7 :=
  have h := Videos_requests_carry_page_size_and_cursor (fun _ => 0) samplePagedSound
    (fun _ _ => Res.ok (some samplePage)) 5 7 [] 4 samplePagedRun rfl rfl
  ⟨rfl, rfl, by decide, h.2.1, h.2.2.2.1⟩

/-! ## Topping the pool up -/

/-- On a client that keeps its browsers, a launch whose navigation and
harvest succeed yields a live session on the context it launched, and
cancels nothing. -/
theorem createSession_live (br : Browser) (api : TikTokAPI) (w : World)
    (startURL msToken proxy : String) (sleepAfter : Int)
    (hbf : api.BrowserFree = false)
    (hnav : br.navigate w.launches.length = none)
    (hharv : ∃ p, br.harvest w.launches.length = .ok p) :
    ∃ w' s, createSession br api w startURL msToken proxy sleepAfter = (w', Res.ok s) ∧
      w'.launches = w.launches ++ [Launch.mk startURL api.Headless proxy] ∧
      w'.cancelled = w.cancelled ∧
      s.BrowserFree = false ∧ s.Context = some w.launches.length ∧
      s.CancelFunc = some w.launches.length := by
  obtain ⟨⟨ua, lang⟩, hh⟩ := hharv
  unfold createSession
  simp only [hnav, hh, setSessionParams]
  rw [if_neg (fun h => by rw [hbf] at h; exact absurd h.1 (by decide))]
  exact ⟨_, _, rfl, rfl, rfl, rfl, rfl, rfl⟩

theorem liveLoop_live (br : Browser) (tokens : List String) (sleepAfter : Int)
    (hlaunch : ∀ n, br.navigate n = none ∧ ∃ p, br.harvest n = .ok p) :
    ∀ (steps i : Nat) (w : World) (api : TikTokAPI), api.BrowserFree = false →
      ∃ w' live, liveLoop br tokens sleepAfter steps i w api =
          (w', { api with Sessions := api.Sessions ++ live }, Res.ok ()) ∧
        live.length = steps ∧ w'.launches.length = w.launches.length + steps ∧
        w'.cancelled = w.cancelled ∧
        ∀ s ∈ live, s.BrowserFree = false ∧ s.Context ≠ none ∧ s.CancelFunc = s.Context := by
  intro steps
  induction steps with
  | zero =>
    intro i w api _
    exact ⟨w, [], by simp [liveLoop], rfl, rfl, rfl, by simp⟩
  | succ steps ih =>
    intro i w api hbf
    obtain ⟨w₁, s, hcs, hl, hc, hsb, hsc, hsf⟩ := createSession_live br api w
      "https://www.tiktok.com" (liveToken tokens i) "" sleepAfter hbf (hlaunch _).1 (hlaunch _).2
    obtain ⟨w', live, hrun, hlen, hlaunches, hcancel, hlive⟩ :=
      ih (i + 1) { w₁ with slept := w₁.slept ++ [sleepAfter] }
        { api with Sessions := api.Sessions ++ [s] } hbf
    refine ⟨w', s :: live, ?_, by simp [hlen], ?_, ?_, ?_⟩
    · unfold liveLoop
      rw [hcs]
      simp only [hrun]
      simp
    · rw [hlaunches]
      simp [hl]
      omega
    · rw [hcancel]
      exact hc
    · intro s' hs'
      rcases List.mem_cons.mp hs' with rfl | hs'
      · exact ⟨hsb, by rw [hsc]; simp, by rw [hsc, hsf]⟩
      · exact hlive s' hs'

/-- On a client that keeps its browsers, with every launch succeeding,
`CreateSessions` runs its second loop as often as the Go difference
`numSessions - len(api.Sessions)` says, appending one live session per
launch. -/
theorem CreateSessions_live_runs (br : Browser) (w : World) (api : TikTokAPI)
    (count : Int) (tokens : List String) (sleepAfter : Int)
    (hbf : api.BrowserFree = false)
    (hlaunch : ∀ n, br.navigate n = none ∧ ∃ p, br.harvest n = .ok p) :
    ∃ w' live, CreateSessions br w api count tokens sleepAfter =
        (w', { api with Sessions := api.Sessions ++ live }, Res.ok ()) ∧
      live.length = (intSubLen count api.Sessions.length).toNat ∧
      w'.launches.length = w.launches.length + (intSubLen count api.Sessions.length).toNat ∧
      w'.cancelled = w.cancelled ∧
      ∀ s ∈ live, s.BrowserFree = false ∧ s.Context ≠ none ∧ s.CancelFunc = s.Context := by
  obtain ⟨w', live, hrun, hlen, hlaunches, hcancel, hlive⟩ :=
    liveLoop_live br tokens sleepAfter hlaunch (intSubLen count api.Sessions.length).toNat 0 w api
      hbf
  refine ⟨w', live, ?_, hlen, hlaunches, hcancel, hlive⟩
  unfold CreateSessions
  rw [if_neg (fun h => by rw [hbf] at h; exact absurd h.1 (by decide)), hrun]

/-- C21 (as stated, refuted): with the target count -2^63 on a pool of one
session, the Go difference `numSessions - len(api.Sessions)` wraps around to
2^63 - 1, so the call does not launch max(0, count - p) = 0 browsers: with
every launch succeeding it launches 2^63 - 1 and the pool does not end with
max(p, count) = 1 sessions. -/
theorem CreateSessions_wrapped_count_launches :
    sampleLivePool.BrowserFree = false ∧
    max 0 (-(2 ^ 63) - (sampleLivePool.Sessions.length : Int)) = 0 ∧
    intSubLen (-(2 ^ 63)) sampleLivePool.Sessions.length = 2 ^ 63 - 1 ∧
    (CreateSessions sampleBrowser sampleWorld sampleLivePool (-(2 ^ 63)) [] 0).1.launches.length
      = sampleWorld.launches.length + (2 ^ 63 - 1) ∧
    ((CreateSessions sampleBrowser sampleWorld sampleLivePool (-(2 ^ 63)) []
        0).2.1.Sessions.length : Int) ≠ max (sampleLivePool.Sessions.length : Int) (-(2 ^ 63)) := by
  obtain ⟨w', live, hcs, hlen, hlaunches, _, _⟩ :=
    CreateSessions_live_runs sampleBrowser sampleWorld sampleLivePool (-(2 ^ 63)) [] 0 rfl
      (fun _ => ⟨rfl, _, rfl⟩)
  have hsub : intSubLen (-(2 ^ 63)) sampleLivePool.Sessions.length = 2 ^ 63 - 1 := by decide
  have hnat : (intSubLen (-(2 ^ 63)) sampleLivePool.Sessions.length).toNat = 2 ^ 63 - 1 := by
    rw [hsub]
    decide
  rw [hnat] at hlen hlaunches
  refine ⟨rfl, by decide, hsub, ?_, ?_⟩
  · rw [hcs]
    exact hlaunches
  · rw [hcs]
    simp only [List.length_append, hlen]
    have hp : sampleLivePool.Sessions.length = 1 := rfl
    rw [hp]
    decide

/-- C21 (amended): on a client with `BrowserFree` unset and every launch
succeeding, `CreateSessions` with a target `count` whose difference to the
pool size p does not fall below the smallest `int` (every count >= 0 among
them) returns nil, launches exactly max(0, count - p) browsers and cancels
none, keeps the earlier sessions in place and appends one live session per
launch, so the pool ends with max(p, count) sessions; a second call with the
same count (whatever tokens and sleep it is given) launches nothing and
leaves world and pool as they are. -/
theorem CreateSessions_tops_up_to_count (br : Browser) (w : World) (api : TikTokAPI)
    (count : Int) (tokens tokens' : List String) (sleepAfter sleepAfter' : Int)
    (hbf : api.BrowserFree = false)
    (hlaunch : ∀ n, br.navigate n = none ∧ ∃ p, br.harvest n = .ok p)
    (hrange : -(2 ^ 63) ≤ count - (api.Sessions.length : Int)) :
    (CreateSessions br w api count tokens sleepAfter).2.2 = Res.ok () ∧
    ((CreateSessions br w api count tokens sleepAfter).1.launches.length : Int) =
      w.launches.length + max 0 (count - (api.Sessions.length : Int)) ∧
    (CreateSessions br w api count tokens sleepAfter).1.cancelled = w.cancelled ∧
    (∃ live, (CreateSessions br w api count tokens sleepAfter).2.1.Sessions =
        api.Sessions ++ live ∧
      (live.length : Int) = max 0 (count - (api.Sessions.length : Int)) ∧
      ∀ s ∈ live, s.BrowserFree = false ∧ s.Context ≠ none ∧ s.CancelFunc = s.Context) ∧
    ((CreateSessions br w api count tokens sleepAfter).2.1.Sessions.length : Int) =
      max (api.Sessions.length : Int) count ∧
    CreateSessions br (CreateSessions br w api count tokens sleepAfter).1
        (CreateSessions br w api count tokens sleepAfter).2.1 count tokens' sleepAfter' =
      ((CreateSessions br w api count tokens sleepAfter).1,
       (CreateSessions br w api count tokens sleepAfter).2.1, Res.ok ()) := by
  obtain ⟨w', live, hcs, hlen, hlaunches, hcancel, hlive⟩ :=
    CreateSessions_live_runs br w api count tokens sleepAfter hbf hlaunch
  rw [intSubLen_eq count api.Sessions.length hrange] at hlen hlaunches
  rw [hcs]
  refine ⟨rfl, ?_, hcancel, ⟨live, rfl, ?_, hlive⟩, ?_, ?_⟩
  · simp only
    rw [hlaunches]
    omega
  · omega
  · simp only [List.length_append]
    omega
  · have hrem : intSubLen count (api.Sessions ++ live).length =
        count - ((api.Sessions ++ live).length : Int) := by
      apply intSubLen_eq
      simp only [List.length_append]
      omega
    have hzero : (intSubLen count (api.Sessions ++ live).length).toNat = 0 := by
      rw [hrem]
      simp only [List.length_append]
      omega
    unfold CreateSessions
    simp only
    rw [if_neg (fun h => by rw [hbf] at h; exact absurd h.1 (by decide)), hzero]
    rfl

/-- C21 (amended) at target 3 on a pool that holds one live session: two
browsers are launched, and a second call launches none. -/
theorem CreateSessions_tops_up_to_count_witness :
    sampleLivePool.BrowserFree = false ∧
    (∀ n, sampleBrowser.navigate n = none ∧ ∃ p, sampleBrowser.harvest n = .ok p) ∧
    -(2 ^ 63) ≤ (3 : Int) - (sampleLivePool.Sessions.length : Int) ∧
    ((CreateSessions sampleBrowser sampleWorld sampleLivePool 3 sampleTokens 1).1.launches.length
        : Int) = sampleWorld.launches.length + max 0 (3 - (sampleLivePool.Sessions.length : Int)) ∧
    ((CreateSessions sampleBrowser sampleWorld sampleLivePool 3 sampleTokens
        1).2.1.Sessions.length : Int) = max (sampleLivePool.Sessions.length : Int) 3 ∧
    CreateSessions sampleBrowser
        (CreateSessions sampleBrowser sampleWorld sampleLivePool 3 sampleTokens 1).1
        (CreateSessions sampleBrowser sampleWorld sampleLivePool 3 sampleTokens 1).2.1 3 [] 0 =
      ((CreateSessions sampleBrowser sampleWorld sampleLivePool 3 sampleTokens 1).1,
       (CreateSessions sampleBrowser sampleWorld sampleLivePool 3 sampleTokens 1).2.1,
       Res.ok ()) :=
  have h := CreateSessions_tops_up_to_count sampleBrowser sampleWorld sampleLivePool 3
    sampleTokens [] 1 0 rfl (fun _ => ⟨rfl, _, rfl⟩) (by decide)
  ⟨rfl, fun _ => ⟨rfl, _, rfl⟩, by decide, h.2.1, h.2.2.2.2.1, h.2.2.2.2.2⟩

end TTS
